import Mathlib

/-!
# Naev: frame loop, pilot flags and combat, vectors, input dispatch, loading and news

A shallow embedding of naev.c, pilot.h, physics.h, input.c and news.c, with `double` values as
rationals and calls into other files recorded as call sequences.
-/

namespace Naev

/-! ## naev.c: the frame loop -/

/-- The calls the update code of naev.c makes, with their arguments; a list of them is the
call sequence of a run, in order. -/
inductive Call where
  | pause_delay (ms : Nat)
  | space_update (dt : ℚ)
  | weapons_update (dt : ℚ)
  | spfx_update (dt : ℚ)
  | pilots_update (dt : ℚ)
  | missions_update (dt : ℚ)
  | events_update (dt : ℚ)
  deriving DecidableEq

def Call.isPilotsUpdate : Call → Bool
  | .pilots_update _ => true
  | _ => false

def Call.isWeaponsUpdate : Call → Bool
  | .weapons_update _ => true
  | _ => false

/-- The cast `(unsigned int)x` of a `double`: truncation toward zero, kept in 32 bits. -/
def toUnsigned (x : ℚ) : Nat :=
  ((if 0 ≤ x then ⌊x⌋ else ⌈x⌉) % (2 ^ 32 : Int)).toNat

/-- The constant `fps_min` of `update_all`, `1./50.`. -/
def fps_min : ℚ := 1 / 50

/-- The function `update_routine`: the six updates of one simulation step, in the order
they are called. -/
def update_routine (dt : ℚ) : List Call :=
  [ .space_update dt, .weapons_update dt, .spfx_update dt,
    .pilots_update dt, .missions_update dt, .events_update dt ]

/-- The loop `while (tempdt > fps_min)` of `update_all`: the calls it makes and the value
of `tempdt` it leaves. -/
def update_loop (tempdt : ℚ) : List Call × ℚ :=
  if fps_min < tempdt then
    let r := update_loop (tempdt - fps_min)
    (Call.pause_delay (toUnsigned (-fps_min * 1000)) :: (update_routine fps_min ++ r.1), r.2)
  else
    ([], tempdt)
termination_by (⌈tempdt * 50⌉).toNat
decreasing_by
  have h1 : (tempdt - fps_min) * 50 = tempdt * 50 - 1 := by
    unfold fps_min; ring
  rw [h1, Int.ceil_sub_one]
  have h3 : (1 : Int) < ⌈tempdt * 50⌉ := by
    have h5 : (1 : ℚ) < tempdt * 50 := by
      unfold fps_min at *; linarith
    have h4 : ((1 : Int) : ℚ) < ((⌈tempdt * 50⌉ : Int) : ℚ) := by
      push_cast; exact lt_of_lt_of_le h5 (Int.le_ceil (tempdt * 50))
    exact_mod_cast h4
  omega

/-- The globals `update_all` reads and writes: `real_dt`, `game_dt` and `fps_skipped`. -/
structure FrameState where
  real_dt : ℚ
  game_dt : ℚ
  fps_skipped : Int

/-- The function `update_all`: the state it leaves and the calls it makes. -/
def update_all (s : FrameState) : FrameState × List Call :=
  if s.real_dt > 1 / 4 ∧ s.fps_skipped = 0 then
    ({ s with fps_skipped := 1 }, [Call.pause_delay (toUnsigned s.game_dt * 1000 % 2 ^ 32)])
  else if s.game_dt > fps_min then
    let tempdt := s.game_dt - fps_min
    let r := update_loop tempdt
    ({ s with fps_skipped := 0 },
      Call.pause_delay (toUnsigned (tempdt * 1000)) :: (update_routine fps_min ++
        (r.1 ++ update_routine r.2)))
  else
    ({ s with fps_skipped := 0 }, update_routine s.game_dt)

/-- How many times a call sequence dispatches `pilots_update`. -/
def pilots_update_calls (l : List Call) : Nat := l.countP Call.isPilotsUpdate

/-- The position of the first call of a kind in a call sequence. -/
def firstCall (p : Call → Bool) (l : List Call) : Nat := l.findIdx p

/-! ## pilot.h: flags and the pilot record -/

/-- Width of the `flags` word of a pilot (`uint32_t flags`). -/
def FLAG_WORD : Nat := 2 ^ 32

/-- The macro `pilot_isFlag(p,f)`, `((p)->flags & (f))`, on the flag word. -/
def pilot_isFlag (flags f : Nat) : Nat := flags &&& f

/-- The macro `pilot_setFlag(p,f)`, `((p)->flags |= (f))`; the result is stored in 32 bits. -/
def pilot_setFlag (flags f : Nat) : Nat := (flags ||| f) % FLAG_WORD

/-- The macro `pilot_rmFlag(p,f)`, `((p)->flags &= ~(f))`; `~f` is the complement of `f`
in the 32 bits of the word. -/
def pilot_rmFlag (flags f : Nat) : Nat := flags &&& (FLAG_WORD - 1 - f % FLAG_WORD)

def PILOT_PLAYER : Nat := 1 <<< 0
def PILOT_ESCORT : Nat := 1 <<< 1
def PILOT_CARRIED : Nat := 1 <<< 2
def PILOT_CREATED_AI : Nat := 1 <<< 3
def PILOT_EMPTY : Nat := 1 <<< 4
def PILOT_NO_OUTFITS : Nat := 1 <<< 5
def PILOT_HASTURRET : Nat := 1 <<< 6
def PILOT_HASBEAMS : Nat := 1 <<< 7
def PILOT_HAILING : Nat := 1 <<< 8
def PILOT_NODISABLE : Nat := 1 <<< 9
def PILOT_INVINCIBLE : Nat := 1 <<< 10
def PILOT_HOSTILE : Nat := 1 <<< 11
def PILOT_FRIENDLY : Nat := 1 <<< 12
def PILOT_COMBAT : Nat := 1 <<< 13
def PILOT_AFTERBURNER : Nat := 1 <<< 14
def PILOT_HYP_PREP : Nat := 1 <<< 15
def PILOT_HYP_BEGIN : Nat := 1 <<< 16
def PILOT_HYPERSPACE : Nat := 1 <<< 17
def PILOT_HYP_END : Nat := 1 <<< 18
def PILOT_BOARDED : Nat := 1 <<< 19
def PILOT_NOBOARD : Nat := 1 <<< 20
def PILOT_BOARDING : Nat := 1 <<< 21
def PILOT_BRIBED : Nat := 1 <<< 22
def PILOT_DISTRESSED : Nat := 1 <<< 23
def PILOT_REFUELING : Nat := 1 <<< 24
def PILOT_REFUELBOARDING : Nat := 1 <<< 25
def PILOT_MANUAL_CONTROL : Nat := 1 <<< 26
def PILOT_DISABLED : Nat := 1 <<< 27
def PILOT_DEAD : Nat := 1 <<< 28
def PILOT_DEATH_SOUND : Nat := 1 <<< 29
def PILOT_EXPLODED : Nat := 1 <<< 30
def PILOT_DELETE : Nat := 1 <<< 31

/-- The 32 `PILOT_*` flag masks of pilot.h, in the order they are defined. -/
def pilotFlags : List Nat :=
  [ PILOT_PLAYER, PILOT_ESCORT, PILOT_CARRIED, PILOT_CREATED_AI, PILOT_EMPTY,
    PILOT_NO_OUTFITS, PILOT_HASTURRET, PILOT_HASBEAMS, PILOT_HAILING, PILOT_NODISABLE,
    PILOT_INVINCIBLE, PILOT_HOSTILE, PILOT_FRIENDLY, PILOT_COMBAT, PILOT_AFTERBURNER,
    PILOT_HYP_PREP, PILOT_HYP_BEGIN, PILOT_HYPERSPACE, PILOT_HYP_END, PILOT_BOARDED,
    PILOT_NOBOARD, PILOT_BOARDING, PILOT_BRIBED, PILOT_DISTRESSED, PILOT_REFUELING,
    PILOT_REFUELBOARDING, PILOT_MANUAL_CONTROL, PILOT_DISABLED, PILOT_DEAD,
    PILOT_DEATH_SOUND, PILOT_EXPLODED, PILOT_DELETE ]

def PLAYER_ID : Nat := 1

def HYPERSPACE_ENGINE_DELAY : ℚ := 3
def HYPERSPACE_FLY_DELAY : ℚ := 5
def HYPERSPACE_FADEOUT : ℚ := 1
def HYPERSPACE_FUEL : ℚ := 100
def HYPERSPACE_THRUST : ℚ := 2000
def HYPERSPACE_VEL : ℚ := HYPERSPACE_THRUST * HYPERSPACE_FLY_DELAY

def PILOT_DISABLED_ARMOR : ℚ := 3 / 10

def PILOT_HOOK_NONE : Nat := 0
def PILOT_HOOK_DEATH : Nat := 1
def PILOT_HOOK_BOARD : Nat := 2
def PILOT_HOOK_DISABLE : Nat := 3
def PILOT_HOOK_JUMP : Nat := 4
def PILOT_HOOK_HAIL : Nat := 5
def PILOT_HOOK_ATTACKED : Nat := 6
def PILOT_HOOK_IDLE : Nat := 7

def PILOT_HOSTILE_THRESHOLD : ℚ := 9 / 100
def PILOT_HOSTILE_DECAY : ℚ := 5 / 1000

/-- The struct `PilotHook` of pilot.h. -/
structure PilotHook where
  type : Nat
  id : Nat
  deriving DecidableEq

/-- The fields of the struct `Pilot` of pilot.h that the modelled operations read or write;
`double` fields are rationals. -/
structure Pilot where
  id : Nat
  faction : Int
  armour : ℚ
  shield : ℚ
  fuel : ℚ
  armour_max : ℚ
  shield_max : ℚ
  fuel_max : ℚ
  armour_regen : ℚ
  shield_regen : ℚ
  energy : ℚ
  energy_max : ℚ
  energy_regen : ℚ
  energy_tau : ℚ
  hooks : List PilotHook
  target : Nat
  flags : Nat
  ptimer : ℚ
  player_damage : ℚ
  deriving DecidableEq

/-! ## Combat resolution and the travel state machine (bodies in pilot.c) -/

/-- Modelled from the spec: the body of `pilot_hit` (pilot.c) is not among the sources, only
its declaration in pilot.h. Section 4.5: the damage goes to the shield first and the overflow
to the armour; crossing the disabled-armour fraction sets the disabled flag and fires the
DISABLE hook; armour reaching zero sets the dying flag and fires the DEATH hook, once; a
non-zero hit from another pilot feeds the hostility accumulator. `damage` is the damage after
the damage-type modifiers, which come from tables outside this core. The result is the pilot
after the hit, the hook types fired in order, and the damage absorbed. -/
def pilot_hit (p : Pilot) (shooter : Nat) (damage : ℚ) : Pilot × List Nat × ℚ :=
  let absorbed := min p.shield damage
  let shield := p.shield - absorbed
  let overflow := damage - absorbed
  let armour0 := p.armour - overflow
  let armour := if armour0 ≤ 0 then 0 else armour0
  let dmg := (p.shield - shield) + (p.armour - armour)
  let disable := pilot_isFlag p.flags PILOT_DISABLED = 0 ∧
    armour0 < PILOT_DISABLED_ARMOR * p.armour_max
  let flags1 := if disable then pilot_setFlag p.flags PILOT_DISABLED else p.flags
  let hooks1 := if disable then [PILOT_HOOK_DISABLE] else []
  let die := armour0 ≤ 0 ∧ pilot_isFlag flags1 PILOT_DEAD = 0
  let flags2 := if die then pilot_setFlag flags1 PILOT_DEAD else flags1
  let hooks2 := if die then [PILOT_HOOK_DEATH] else []
  let hostile := shooter ≠ p.id ∧ dmg ≠ 0
  let player_damage :=
    if hostile then p.player_damage + dmg / (p.armour_max + p.shield_max)
    else p.player_damage
  let flags3 :=
    if hostile ∧ player_damage > PILOT_HOSTILE_THRESHOLD then pilot_setFlag flags2 PILOT_HOSTILE
    else flags2
  ({ p with shield := shield, armour := armour, flags := flags3,
            player_damage := player_damage },
   hooks1 ++ hooks2, dmg)

/-- A run of hits on one pilot: the pilot after all of them and every hook fired, in order. -/
def pilot_hits (p : Pilot) (shooter : Nat) : List ℚ → Pilot × List Nat
  | [] => (p, [])
  | d :: ds =>
    let r := pilot_hit p shooter d
    let rest := pilot_hits r.1 shooter ds
    (rest.1, r.2.1 ++ rest.2)

/-- The four hyperspace-phase flags, in the order of the phases. -/
def hypFlags : List Nat := [PILOT_HYP_PREP, PILOT_HYP_BEGIN, PILOT_HYPERSPACE, PILOT_HYP_END]

/-- The phase flags that are set in a flag word. -/
def hypPhases (flags : Nat) : List Nat :=
  hypFlags.filter (fun f => pilot_isFlag flags f ≠ 0)

/-- Modelled from the spec: entering hyperspace preparation (the code that starts a jump is
not among the sources). Section 4.4: from no phase, entering `PREP` starts the engine
warm-up countdown of fixed duration. -/
def pilot_hyperspaceEnter (p : Pilot) : Pilot :=
  if hypPhases p.flags = [] then
    { p with flags := pilot_setFlag p.flags PILOT_HYP_PREP, ptimer := HYPERSPACE_ENGINE_DELAY }
  else p

/-- Modelled from the spec: the per-frame advance of the travel state machine (step 7 of the
update cycle; its body in pilot.c is not among the sources). Section 4.4: the warm-up
countdown of `PREP` ends in `BEGIN`; in `BEGIN` the pilot accelerates and, once its speed
`vel` reaches the hyperspace velocity, goes to `TRAVELING` for the flight duration; when
that has elapsed it goes to `END`, paying the fuel cost, and after the fade-out it has
arrived, with no phase. -/
def pilot_hyperspace (p : Pilot) (vel dt : ℚ) : Pilot :=
  if pilot_isFlag p.flags PILOT_HYP_PREP ≠ 0 then
    if p.ptimer - dt ≤ 0 then
      { p with flags := pilot_setFlag (pilot_rmFlag p.flags PILOT_HYP_PREP) PILOT_HYP_BEGIN,
               ptimer := p.ptimer - dt }
    else { p with ptimer := p.ptimer - dt }
  else if pilot_isFlag p.flags PILOT_HYP_BEGIN ≠ 0 then
    if HYPERSPACE_VEL ≤ vel then
      { p with flags := pilot_setFlag (pilot_rmFlag p.flags PILOT_HYP_BEGIN) PILOT_HYPERSPACE,
               ptimer := HYPERSPACE_FLY_DELAY }
    else p
  else if pilot_isFlag p.flags PILOT_HYPERSPACE ≠ 0 then
    if p.ptimer - dt ≤ 0 then
      { p with flags := pilot_setFlag (pilot_rmFlag p.flags PILOT_HYPERSPACE) PILOT_HYP_END,
               ptimer := HYPERSPACE_FADEOUT,
               fuel := p.fuel - HYPERSPACE_FUEL }
    else { p with ptimer := p.ptimer - dt }
  else if pilot_isFlag p.flags PILOT_HYP_END ≠ 0 then
    if p.ptimer - dt ≤ 0 then
      { p with flags := pilot_rmFlag p.flags PILOT_HYP_END, ptimer := p.ptimer - dt }
    else { p with ptimer := p.ptimer - dt }
  else p

/-- Modelled from the spec: `pilot_hyperspaceAbort` is declared in pilot.h and its body
(pilot.c) is not among the sources. Section 4.4: aborting is legal only from `PREP` or
`BEGIN` and returns the pilot to no phase, refunding no time. -/
def pilot_hyperspaceAbort (p : Pilot) : Pilot :=
  if pilot_isFlag p.flags PILOT_HYP_PREP ≠ 0 ∨ pilot_isFlag p.flags PILOT_HYP_BEGIN ≠ 0 then
    { p with flags := pilot_rmFlag (pilot_rmFlag p.flags PILOT_HYP_PREP) PILOT_HYP_BEGIN }
  else p

/-- The operations that touch the hyperspace phase of a pilot. -/
inductive HypOp where
  | enter
  | update (vel dt : ℚ)
  | abort
  deriving DecidableEq

def hypApply (p : Pilot) : HypOp → Pilot
  | .enter => pilot_hyperspaceEnter p
  | .update vel dt => pilot_hyperspace p vel dt
  | .abort => pilot_hyperspaceAbort p

def hypRun (p : Pilot) : List HypOp → Pilot
  | [] => p
  | op :: ops => hypRun (hypApply p op) ops

/-- The phase changes a non-aborting operation may make: none, or one step forward along
none, PREP, BEGIN, TRAVELING, END, none. -/
def hypForward (a b : List Nat) : Prop :=
  b = a ∨ (a = [] ∧ b = [PILOT_HYP_PREP]) ∨
    (a = [PILOT_HYP_PREP] ∧ b = [PILOT_HYP_BEGIN]) ∨
    (a = [PILOT_HYP_BEGIN] ∧ b = [PILOT_HYPERSPACE]) ∨
    (a = [PILOT_HYPERSPACE] ∧ b = [PILOT_HYP_END]) ∨
    (a = [PILOT_HYP_END] ∧ b = [])

/-- What an operation may do to the phase: an abort takes `PREP` and `BEGIN` to no phase and
leaves every other phase alone; any other operation moves forward. -/
def hypStepOK (op : HypOp) (a b : List Nat) : Prop :=
  match op with
  | .abort =>
    ((a = [PILOT_HYP_PREP] ∨ a = [PILOT_HYP_BEGIN]) ∧ b = []) ∨
      (a ≠ [PILOT_HYP_PREP] ∧ a ≠ [PILOT_HYP_BEGIN] ∧ b = a)
  | _ => hypForward a b

/-- The pilot of the combat scenario of the spec: `armour_max = 100`, `shield_max = 50`,
full armour and shield, no flag set. -/
def scenarioPilot : Pilot :=
  { id := 7, faction := 0, armour := 100, shield := 50, fuel := 0, armour_max := 100,
    shield_max := 50, fuel_max := 0, armour_regen := 0, shield_regen := 0, energy := 0,
    energy_max := 0, energy_regen := 0, energy_tau := 0, hooks := [], target := 0,
    flags := 0, ptimer := 0, player_damage := 0 }

/-! ## physics.h: vectors -/

/-- The enum `KeybindType` (declared in input.h, which is not among the sources); the
constructors are the values input.c uses. -/
inductive KeybindType where
  | KEYBIND_NULL
  | KEYBIND_KEYBOARD
  | KEYBIND_JAXISPOS
  | KEYBIND_JAXISNEG
  | KEYBIND_JBUTTON
  deriving DecidableEq

/-- The `NMOD_*` modifier masks (defined in input.h, which is not among the sources), taken
as a parameter. -/
structure NMods where
  NMOD_NONE : Nat
  NMOD_SHIFT : Nat
  NMOD_CTRL : Nat
  NMOD_ALT : Nat
  NMOD_META : Nat
  NMOD_ALL : Nat

/-- The key `SDLK_UNKNOWN` of SDL. -/
def SDLK_UNKNOWN : Int := 0

/-- The struct `Keybind` of input.c. -/
structure Keybind where
  name : String
  type : KeybindType
  key : Int
  mod : Nat
  deriving DecidableEq

/-- The array `keybindNames` of input.c, with its terminating "end". -/
def keybindNames : List String :=
  [ "accel", "left", "right", "reverse", "afterburn",
    "target_next", "target_prev", "target_nearest",
    "target_nextHostile", "target_prevHostile", "target_hostile",
    "target_clear",
    "primary", "face", "board", "safety",
    "weap_all", "weap_turret", "weap_forward",
    "secondary", "secondary_next", "secondary_prev",
    "e_targetNext", "e_targetPrev", "e_attack", "e_hold", "e_return", "e_clear",
    "autonav", "target_planet", "land", "thyperspace", "starmap", "jump",
    "log_up", "log_down", "hail", "autohail",
    "mapzoomin", "mapzoomout", "screenshot", "pause", "speed", "menu", "info",
    "console", "switchtab1", "switchtab2", "switchtab3", "switchtab4",
    "switchtab5", "switchtab6", "switchtab7", "switchtab8", "switchtab9",
    "switchtab0",
    "end" ]

/-- The names the loops `for (i=0; strcmp(keybindNames[i],"end"); i++)` visit: those before
the first "end". -/
def keybindCommands : List String := keybindNames.takeWhile (fun s => s != "end")

/-- The table `input_keybinds` built by `input_init`: one null keybinding for each name
before "end". -/
def input_init (n : NMods) : List Keybind :=
  keybindCommands.map fun s =>
    { name := s, type := KeybindType.KEYBIND_NULL, key := SDLK_UNKNOWN, mod := n.NMOD_NONE }

/-- The function `input_setKeybind`: the first entry whose name is `keybind` gets the type,
the key and the modifier (`NMOD_ALL` unless the type is keyboard). The result is the table
and whether the call ended in the warning that the command does not exist. The table has one
entry for each name before "end", so the walk over the table is the loop of the source. -/
def input_setKeybind (n : NMods) (binds : List Keybind) (keybind : String)
    (type : KeybindType) (key : Int) (mod : Nat) : List Keybind × Bool :=
  match binds with
  | [] => ([], true)
  | k :: ks =>
    if keybind = k.name then
      ({ k with type := type, key := key,
                mod := if type = KeybindType.KEYBIND_KEYBOARD then mod else n.NMOD_ALL } :: ks,
       false)
    else
      let r := input_setKeybind n ks keybind type key mod
      (k :: r.1, r.2)

/-- The function `input_getKeybind`: the key of the first entry whose name is `keybind`,
with the type and modifier stored through the out-parameters; `-1` and nothing stored when
no entry has that name. -/
def input_getKeybind (binds : List Keybind) (keybind : String) :
    Int × Option (KeybindType × Nat) :=
  match binds with
  | [] => (-1, none)
  | k :: ks =>
    if keybind = k.name then (k.key, some (k.type, k.mod))
    else input_getKeybind ks keybind

/-! ## input.c: running a command -/

def KEY_PRESS : Int := 1
def KEY_RELEASE : Int := -1

/-- The player flags input.c sets and clears with `player_setFlag` and `player_rmFlag`
(defined in player.h, which is not among the sources). -/
inductive PlayerFlag where
  | PLAYER_TURN_LEFT
  | PLAYER_TURN_RIGHT
  | PLAYER_REVERSE
  | PLAYER_FACE
  | PLAYER_PRIMARY
  | PLAYER_SECONDARY
  deriving DecidableEq

/-- The calls `input_key` makes into the rest of the game, with their arguments. A pilot
pointer argument is the pilot it points to, or `none` for `NULL`. -/
inductive InputCmd where
  | player_abortAutonav
  | player_accel (acc : ℚ)
  | player_accelOver
  | player_afterburn
  | player_afterburnOver
  | player_targetNext (mode : Int)
  | player_targetPrev (mode : Int)
  | player_targetNearest
  | player_targetHostile
  | player_targetClear
  | player_board
  | weapon_toggleSafety
  | player_setFireMode (mode : Int)
  | player_targetEscort (prev : Int)
  | escorts_attack (parent : Option Pilot)
  | escorts_hold (parent : Option Pilot)
  | escorts_return (parent : Option Pilot)
  | escorts_clear (parent : Option Pilot)
  | player_secondaryNext
  | player_secondaryPrev
  | player_startAutonav
  | player_targetPlanet
  | player_land
  | player_targetHyperspace
  | map_open
  | player_jump
  | gui_messageScrollUp (lines : Int)
  | gui_messageScrollDown (lines : Int)
  | player_hail
  | player_autohail
  | gui_setRadarRel (mod : Int)
  | player_screenshot
  | unpause_game
  | pause_game
  | pause_setSpeed (mod : ℚ)
  | menu_small
  | menu_info
  | cli_open
  deriving DecidableEq

/-- The state `input_key` reads and writes: the statics of input.c, and the globals of
other files it consults (`conf`, `paused`, `landed`, `player`, `dt_mod`, the player flags,
`player_left`, `player_right`, and whether the toolkit is open). -/
structure InputState where
  input_keybinds : List Keybind
  repeat_key : Int
  repeat_keyTimer : Nat
  repeat_keyCounter : Nat
  input_accelLast : Nat
  input_afterburnerButton : Int
  player_left : ℚ
  player_right : ℚ
  conf_repeat_delay : Nat
  conf_afterburn_sens : Nat
  toolkit_open : Bool
  paused : Bool
  landed : Bool
  player : Option Pilot
  player_flags : List PlayerFlag
  dt_mod : ℚ

/-- The macro `INGAME()`, `(!toolkit_isOpen() && !paused)`. -/
def INGAME (st : InputState) : Prop := st.toolkit_open = false ∧ st.paused = false

instance (st : InputState) : Decidable (INGAME st) := by
  unfold INGAME; exact inferInstance

/-- The macro `NOHYP()`: the player exists and has none of `PILOT_HYP_PREP`,
`PILOT_HYP_BEGIN`, `PILOT_HYPERSPACE`. -/
def NOHYP (st : InputState) : Prop :=
  match st.player with
  | none => False
  | some p =>
    pilot_isFlag p.flags PILOT_HYP_PREP = 0 ∧ pilot_isFlag p.flags PILOT_HYP_BEGIN = 0 ∧
      pilot_isFlag p.flags PILOT_HYPERSPACE = 0

instance (st : InputState) : Decidable (NOHYP st) := by
  unfold NOHYP; cases st.player <;> exact inferInstance

/-- The macro `NODEAD()`, `(player && !pilot_isFlag(player,PILOT_DEAD))`. -/
def NODEAD (st : InputState) : Prop :=
  match st.player with
  | none => False
  | some p => pilot_isFlag p.flags PILOT_DEAD = 0

instance (st : InputState) : Decidable (NODEAD st) := by
  unfold NODEAD; cases st.player <;> exact inferInstance

/-- The macro `NOLAND()`, `(!landed)`. -/
def NOLAND (st : InputState) : Prop := st.landed = false

instance (st : InputState) : Decidable (NOLAND st) := by
  unfold NOLAND; exact inferInstance

/-- The macro `player_setFlag(f)` on the player flags. -/
def player_setFlag (st : InputState) (f : PlayerFlag) : InputState :=
  { st with player_flags := f :: st.player_flags.filter (fun g => g != f) }

/-- The macro `player_rmFlag(f)` on the player flags. -/
def player_rmFlag (st : InputState) (f : PlayerFlag) : InputState :=
  { st with player_flags := st.player_flags.filter (fun g => g != f) }

/-- The macro `player_isFlag(f)` on the player flags. -/
def player_isFlag (st : InputState) (f : PlayerFlag) : Prop := f ∈ st.player_flags

instance (st : InputState) (f : PlayerFlag) : Decidable (player_isFlag st f) := by
  unfold player_isFlag; exact inferInstance

/-- The key-repeat bookkeeping at the head of `input_key`; `t` is what `SDL_GetTicks`
returns there. -/
def input_keyRepeat (st : InputState) (t : Nat) (keynum : Nat) (value : Int) (rep : Bool) :
    InputState :=
  if st.conf_repeat_delay ≠ 0 then
    if value = KEY_PRESS ∧ rep = false then
      { st with repeat_key := keynum, repeat_keyTimer := t, repeat_keyCounter := 0 }
    else if value = KEY_RELEASE then
      { st with repeat_key := -1, repeat_keyTimer := 0, repeat_keyCounter := 0 }
    else st
  else st

/-- The function `input_key`: runs the command of keybinding number `keynum`. `value` is
`KEY_PRESS` or `KEY_RELEASE`, `kabs` the absolute value, `rep` whether the event is a key
repeat; `t0` and `t` are what the two calls of `SDL_GetTicks` return. The result is the new
state and the calls made, in order. The chain of `else if` is that of the source, branch for
branch; `name` is `input_keybinds[keynum]->name`, which the macro `KEY(s)` compares to `s`.
A `keynum` outside the table, which no caller passes, runs nothing. -/
def input_key (st0 : InputState) (t0 t : Nat) (keynum : Nat) (value : Int) (kabs : ℚ)
    (rep : Bool) : InputState × List InputCmd :=
  match st0.input_keybinds.get? keynum with
  | none => (st0, [])
  | some kb =>
    let name := kb.name
    let st := input_keyRepeat st0 t0 keynum value rep
    if name = "accel" ∧ rep = false then
      if kabs ≥ 0 then
        (st, [.player_abortAutonav, .player_accel kabs])
      else
        let c1 : List InputCmd :=
          if value = KEY_PRESS then [.player_abortAutonav, .player_accel 1]
          else if value = KEY_RELEASE then [.player_accelOver]
          else []
        let c2 : List InputCmd :=
          if st.conf_afterburn_sens ≠ 0 ∧ value = KEY_PRESS ∧ INGAME st ∧ NOHYP st ∧
              NODEAD st ∧
              (t + 2 ^ 32 - st.input_accelLast) % 2 ^ 32 ≤ st.conf_afterburn_sens then
            [.player_afterburn]
          else if value = KEY_RELEASE ∧ st.input_afterburnerButton = 0 then
            [.player_afterburnOver]
          else []
        let st1 := if value = KEY_PRESS then { st with input_accelLast := t } else st
        (st1, c1 ++ c2)
    else if name = "afterburn" ∧ INGAME st ∧ rep = false then
      if value = KEY_PRESS ∧ NOHYP st ∧ NODEAD st then
        ({ st with input_afterburnerButton := 1 }, [.player_afterburn])
      else if value = KEY_RELEASE then
        ({ st with input_afterburnerButton := 0 }, [.player_afterburnOver])
      else (st, [])
    else if name = "left" ∧ rep = false then
      if kabs ≥ 0 then
        ({ player_setFlag st .PLAYER_TURN_LEFT with player_left := kabs },
          [.player_abortAutonav])
      else if value = KEY_PRESS then
        ({ player_setFlag st .PLAYER_TURN_LEFT with player_left := 1 },
          [.player_abortAutonav])
      else if value = KEY_RELEASE then
        ({ player_rmFlag st .PLAYER_TURN_LEFT with player_left := 0 }, [])
      else (st, [])
    else if name = "right" ∧ rep = false then
      if kabs ≥ 0 then
        ({ player_setFlag st .PLAYER_TURN_RIGHT with player_right := kabs },
          [.player_abortAutonav])
      else if value = KEY_PRESS then
        ({ player_setFlag st .PLAYER_TURN_RIGHT with player_right := 1 },
          [.player_abortAutonav])
      else if value = KEY_RELEASE then
        ({ player_rmFlag st .PLAYER_TURN_RIGHT with player_right := 0 }, [])
      else (st, [])
    else if name = "reverse" ∧ rep = false then
      if value = KEY_PRESS then
        (player_setFlag st .PLAYER_REVERSE, [.player_abortAutonav])
      else if value = KEY_RELEASE ∧ player_isFlag st .PLAYER_REVERSE then
        (player_rmFlag st .PLAYER_REVERSE, [])
      else (st, [])
    else if name = "primary" ∧ NODEAD st ∧ rep = false then
      if value = KEY_PRESS then
        (player_setFlag st .PLAYER_PRIMARY, [.player_abortAutonav])
      else if value = KEY_RELEASE then
        (player_rmFlag st .PLAYER_PRIMARY, [])
      else (st, [])
    else if INGAME st ∧ NODEAD st ∧ name = "target_next" then
      (st, if value = KEY_PRESS then [.player_targetNext 0] else [])
    else if INGAME st ∧ NODEAD st ∧ name = "target_prev" then
      (st, if value = KEY_PRESS then [.player_targetPrev 0] else [])
    else if INGAME st ∧ NODEAD st ∧ name = "target_nearest" then
      (st, if value = KEY_PRESS then [.player_targetNearest] else [])
    else if INGAME st ∧ NODEAD st ∧ name = "target_nextHostile" then
      (st, if value = KEY_PRESS then [.player_targetNext 1] else [])
    else if INGAME st ∧ NODEAD st ∧ name = "target_prevHostile" then
      (st, if value = KEY_PRESS then [.player_targetPrev 1] else [])
    else if INGAME st ∧ NODEAD st ∧ name = "target_hostile" then
      (st, if value = KEY_PRESS then [.player_targetHostile] else [])
    else if INGAME st ∧ NODEAD st ∧ name = "target_clear" then
      (st, if value = KEY_PRESS then [.player_targetClear] else [])
    else if name = "face" ∧ rep = false then
      if value = KEY_PRESS then
        (player_setFlag st .PLAYER_FACE, [.player_abortAutonav])
      else if value = KEY_RELEASE ∧ player_isFlag st .PLAYER_FACE then
        (player_rmFlag st .PLAYER_FACE, [])
      else (st, [])
    else if name = "board" ∧ INGAME st ∧ NOHYP st ∧ NODEAD st ∧ rep = false then
      (st, if value = KEY_PRESS then [.player_abortAutonav, .player_board] else [])
    else if name = "safety" ∧ INGAME st ∧ rep = false then
      (st, if value = KEY_PRESS then [.weapon_toggleSafety] else [])
    else if name = "weap_all" ∧ INGAME st ∧ NODEAD st ∧ rep = false then
      (st, if value = KEY_PRESS then [.player_setFireMode 0] else [])
    else if name = "weap_turret" ∧ INGAME st ∧ NODEAD st ∧ rep = false then
      (st, if value = KEY_PRESS then [.player_setFireMode 1] else [])
    else if name = "weap_forward" ∧ INGAME st ∧ NODEAD st ∧ rep = false then
      (st, if value = KEY_PRESS then [.player_setFireMode 2] else [])
    else if INGAME st ∧ NODEAD st ∧ name = "e_targetNext" ∧ rep = false then
      (st, if value = KEY_PRESS then [.player_targetEscort 0] else [])
    else if INGAME st ∧ NODEAD st ∧ name = "e_targetPrev" ∧ rep = false then
      (st, if value = KEY_PRESS then [.player_targetEscort 1] else [])
    else if INGAME st ∧ NODEAD st ∧ name = "e_attack" ∧ rep = false then
      (st, if value = KEY_PRESS then [.escorts_attack st.player] else [])
    else if INGAME st ∧ NODEAD st ∧ name = "e_hold" ∧ rep = false then
      (st, if value = KEY_PRESS then [.escorts_hold st.player] else [])
    else if INGAME st ∧ NODEAD st ∧ name = "e_return" ∧ rep = false then
      (st, if value = KEY_PRESS then [.escorts_return st.player] else [])
    else if INGAME st ∧ NODEAD st ∧ name = "e_clear" ∧ rep = false then
      (st, if value = KEY_PRESS then [.escorts_clear st.player] else [])
    else if name = "secondary" ∧ NOHYP st ∧ NODEAD st ∧ rep = false then
      if value = KEY_PRESS then
        (player_setFlag st .PLAYER_SECONDARY, [.player_abortAutonav])
      else if value = KEY_RELEASE then
        (player_rmFlag st .PLAYER_SECONDARY, [])
      else (st, [])
    else if name = "secondary_next" ∧ INGAME st ∧ NODEAD st then
      (st, if value = KEY_PRESS then [.player_secondaryNext] else [])
    else if name = "secondary_prev" ∧ INGAME st ∧ NODEAD st then
      (st, if value = KEY_PRESS then [.player_secondaryPrev] else [])
    else if name = "autonav" ∧ INGAME st ∧ NOHYP st ∧ NODEAD st then
      (st, if value = KEY_PRESS then [.player_startAutonav] else [])
    else if name = "target_planet" ∧ INGAME st ∧ NOHYP st ∧ NODEAD st then
      (st, if value = KEY_PRESS then [.player_targetPlanet] else [])
    else if name = "land" ∧ INGAME st ∧ NOHYP st ∧ NODEAD st then
      (st, if value = KEY_PRESS then [.player_abortAutonav, .player_land] else [])
    else if name = "thyperspace" ∧ NOHYP st ∧ NOLAND st ∧ NODEAD st then
      (st, if value = KEY_PRESS then [.player_abortAutonav, .player_targetHyperspace] else [])
    else if name = "starmap" ∧ NOHYP st ∧ NODEAD st ∧ rep = false then
      (st, if value = KEY_PRESS then [.map_open] else [])
    else if name = "jump" ∧ INGAME st ∧ rep = false then
      (st, if value = KEY_PRESS then [.player_abortAutonav, .player_jump] else [])
    else if name = "log_up" ∧ INGAME st ∧ NODEAD st then
      (st, if value = KEY_PRESS then [.gui_messageScrollUp 5] else [])
    else if name = "log_down" ∧ INGAME st ∧ NODEAD st then
      (st, if value = KEY_PRESS then [.gui_messageScrollDown 5] else [])
    else if name = "hail" ∧ INGAME st ∧ NOHYP st ∧ NODEAD st ∧ rep = false then
      (st, if value = KEY_PRESS then [.player_hail] else [])
    else if name = "autohail" ∧ INGAME st ∧ NOHYP st ∧ NODEAD st ∧ rep = false then
      (st, if value = KEY_PRESS then [.player_autohail] else [])
    else if name = "mapzoomin" ∧ INGAME st ∧ NODEAD st then
      (st, if value = KEY_PRESS then [.gui_setRadarRel (-1)] else [])
    else if name = "mapzoomout" ∧ INGAME st ∧ NODEAD st then
      (st, if value = KEY_PRESS then [.gui_setRadarRel 1] else [])
    else if name = "screenshot" then
      (st, if value = KEY_PRESS then [.player_screenshot] else [])
    else if name = "pause" ∧ rep = false then
      (st, if value = KEY_PRESS then
            if st.toolkit_open = false then
              if st.paused = true then [.unpause_game] else [.pause_game]
            else []
          else [])
    else if name = "speed" ∧ rep = false then
      (st, if value = KEY_PRESS then
            if st.dt_mod = 1 then [.pause_setSpeed 2] else [.pause_setSpeed 1]
          else [])
    else if name = "menu" ∧ NODEAD st ∧ rep = false then
      (st, if value = KEY_PRESS then [.menu_small] else [])
    else if name = "info" ∧ NOHYP st ∧ NODEAD st ∧ rep = false then
      (st, if value = KEY_PRESS then [.menu_info] else [])
    else if name = "console" ∧ NODEAD st ∧ rep = false then
      (st, if value = KEY_PRESS then [.cli_open] else [])
    else (st, [])

/-- The targeting commands of the player: `player_targetNext`, `player_targetPrev`,
`player_targetNearest`, `player_targetHostile`, `player_targetClear`. -/
def InputCmd.isTargeting : InputCmd → Bool
  | .player_targetNext _ => true
  | .player_targetPrev _ => true
  | .player_targetNearest => true
  | .player_targetHostile => true
  | .player_targetClear => true
  | _ => false

/-- The pilot an escort command is issued against, for the four escort commands. -/
def InputCmd.escortParent : InputCmd → Option (Option Pilot)
  | .escorts_attack q => some q
  | .escorts_hold q => some q
  | .escorts_return q => some q
  | .escorts_clear q => some q
  | _ => none

/-- The names of the keybindings whose branch issues a targeting command. -/
def targetingKeys : List String :=
  [ "target_next", "target_prev", "target_nearest", "target_nextHostile",
    "target_prevHostile", "target_hostile", "target_clear" ]

/-- A blank pilot with the given identity and flag word. -/
def pilotWithFlags (id flags : Nat) : Pilot :=
  { id := id, faction := 0, armour := 0, shield := 0, fuel := 0, armour_max := 0,
    shield_max := 0, fuel_max := 0, armour_regen := 0, shield_regen := 0, energy := 0,
    energy_max := 0, energy_regen := 0, energy_tau := 0, hooks := [], target := 0,
    flags := flags, ptimer := 0, player_damage := 0 }

/-- A choice of the `NMOD_*` masks for concrete runs: distinct bits, and all bits for
`NMOD_ALL`. -/
def sampleNMods : NMods := ⟨0, 1, 2, 4, 8, 65535⟩

/-- An in-game input state: the table of `input_init` with `target_next` bound to the tab
key (9) and `e_attack` to the key f (102) as `input_setDefault` binds them, toolkit closed,
not paused, and the given player. -/
def inputStateWith (player : Option Pilot) : InputState :=
  { input_keybinds :=
      (input_setKeybind sampleNMods
        (input_setKeybind sampleNMods (input_init sampleNMods) "target_next"
          KeybindType.KEYBIND_KEYBOARD 9 sampleNMods.NMOD_NONE).1
        "e_attack" KeybindType.KEYBIND_KEYBOARD 102 sampleNMods.NMOD_ALL).1,
    repeat_key := -1, repeat_keyTimer := 0,
    repeat_keyCounter := 0, input_accelLast := 0, input_afterburnerButton := 0,
    player_left := 0, player_right := 0, conf_repeat_delay := 0, conf_afterburn_sens := 0,
    toolkit_open := false, paused := false, landed := false, player := player,
    player_flags := [], dt_mod := 1 }

/-! ## input.c: descriptions, bound keys, modifiers, defaults and key events -/

/-- The array `keybindDescription` of input.c, with its terminating `NULL`. -/
def keybindDescription : List (Option String) :=
  [ some "Makes your ship accelerate forward.",
    some "Makes your ship turn left.",
    some "Makes your ship turn right.",
    some "Makes your ship turn around and face the direction you're moving from. Good for braking.",
    some "Makes your ship afterburn if you have an afterburner installed.",
    some "Cycles through ship targets.",
    some "Cycles backwards through ship targets.",
    some "Targets the nearest non-disabled ship.",
    some "Cycles through hostile ship targets.",
    some "Cycles backwards through hostile ship targets.",
    some "Targets the nearest hostile ship.",
    some "Clears current target.",
    some "Fires your primary weapons.",
    some "Faces your target (ship target if you have one, otherwise your planet target).",
    some "Attempts to board your target ship.",
    some "Toggles weapon safety (hitting of friendly ships).",
    some "Sets fire mode to use all weapons available (both turret and forward mounts).",
    some "Sets fire mode to only use turret-class primary weapons.",
    some "Sets fire mode to only use forward-class primary weapons.",
    some "Fires your secondary weapon.",
    some "Cycles through secondary weapons.",
    some "Cycles backwards through secondary weapons.",
    some "Cycles through your escorts.",
    some "Cycles backwards through your escorts.",
    some "Tells your escorts to attack your target.",
    some "Tells your escorts to hold their positions.",
    some "Tells your escorts to return to your ship hangars.",
    some "Clears your escorts of commands.",
    some "Initializes the autonavigation system.",
    some "Cycles through planet targets",
    some "Attempts to land on your targetted planet or targets the nearest landable planet. Requests for landing if you don't have permission yet.",
    some "Cycles through hyperspace targets.",
    some "Opens the Star Map.",
    some "Attempts to jump to your hyperspace target.",
    some "Scrolls the log upwards.",
    some "Scrolls the log downwards.",
    some "Attempts to initialize communication with your targetted ship.",
    some "Automatically initialize communication with a ship that hailed you.",
    some "Zooms in on your radar.",
    some "Zooms out on your radar.",
    some "Takes a screenshot.",
    some "Pauses the game.",
    some "Toggles 2x speed modifier.",
    some "Opens the small ingame menu.",
    some "Opens the information menu.",
    some "Opens the Lua console.",
    some "Switches to tab 1.",
    some "Switches to tab 2.",
    some "Switches to tab 3.",
    some "Switches to tab 4.",
    some "Switches to tab 5.",
    some "Switches to tab 6.",
    some "Switches to tab 7.",
    some "Switches to tab 8.",
    some "Switches to tab 9.",
    some "Switches to tab 10.",
    none ]

/-- The function `input_getKeybindDescription`: the entry of the description array at the
index of the first table entry whose name is `keybind`; `NULL` after the warning when no
entry has that name. The table and the array are walked together, index by index. -/
def input_getKeybindDescription (binds : List Keybind) (descs : List (Option String))
    (keybind : String) : Option String :=
  match binds, descs with
  | k :: ks, d :: ds =>
    if keybind = k.name then d else input_getKeybindDescription ks ds keybind
  | _, _ => none

/-- The function `input_keyAlreadyBound`: walks the names and the table together and
returns `keybindNames[i]` for the first entry that passes the type test, the key test and
the `switch` on the type; `NULL` when the walk ends. -/
def input_keyAlreadyBound (n : NMods) (names : List String) (binds : List Keybind)
    (type : KeybindType) (key : Int) (mod : Nat) : Option String :=
  match names, binds with
  | name :: names, k :: ks =>
    if k.type ≠ type then input_keyAlreadyBound n names ks type key mod
    else if key ≠ k.key then input_keyAlreadyBound n names ks type key mod
    else
      match type with
      | .KEYBIND_KEYBOARD =>
        if k.mod = n.NMOD_ALL ∨ mod = n.NMOD_ALL ∨ k.mod = mod then some name
        else input_keyAlreadyBound n names ks type key mod
      | .KEYBIND_JAXISPOS => some name
      | .KEYBIND_JAXISNEG => some name
      | .KEYBIND_JBUTTON => some name
      | _ => input_keyAlreadyBound n names ks type key mod
  | _, _ => none

/-- What it is for a binding to be already bound to an input, in the words of the
description: same type and same key, and for the keyboard a compatible modifier (one of the
two is `NMOD_ALL`, or they are equal); for the joystick types the type and key alone; never
for `KEYBIND_NULL`. -/
def bindingTaken (n : NMods) (type : KeybindType) (key : Int) (mod : Nat) (k : Keybind) :
    Bool :=
  match type with
  | .KEYBIND_NULL => false
  | .KEYBIND_KEYBOARD =>
    decide (k.type = type ∧ k.key = key ∧
      (k.mod = n.NMOD_ALL ∨ mod = n.NMOD_ALL ∨ k.mod = mod))
  | _ => decide (k.type = type ∧ k.key = key)

/-! The modifier masks of SDL 1.2 (`SDL_keysym.h`). -/

def KMOD_NONE : Nat := 0x0000
def KMOD_LSHIFT : Nat := 0x0001
def KMOD_RSHIFT : Nat := 0x0002
def KMOD_LCTRL : Nat := 0x0040
def KMOD_RCTRL : Nat := 0x0080
def KMOD_LALT : Nat := 0x0100
def KMOD_RALT : Nat := 0x0200
def KMOD_LMETA : Nat := 0x0400
def KMOD_RMETA : Nat := 0x0800
def KMOD_NUM : Nat := 0x1000
def KMOD_CAPS : Nat := 0x2000
def KMOD_MODE : Nat := 0x4000

/-- The function `input_translateMod`: the NAEV modifier of an SDL modifier word. -/
def input_translateMod (n : NMods) (mod : Nat) : Nat :=
  let f0 : Nat := 0
  let f1 := if mod &&& (KMOD_LSHIFT ||| KMOD_RSHIFT) ≠ 0 then f0 ||| n.NMOD_SHIFT else f0
  let f2 := if mod &&& (KMOD_LCTRL ||| KMOD_RCTRL) ≠ 0 then f1 ||| n.NMOD_CTRL else f1
  let f3 := if mod &&& (KMOD_LALT ||| KMOD_RALT) ≠ 0 then f2 ||| n.NMOD_ALT else f2
  let f4 := if mod &&& (KMOD_LMETA ||| KMOD_RMETA) ≠ 0 then f3 ||| n.NMOD_META else f3
  f4

/-! The key symbols of SDL 1.2 (`SDL_keysym.h`) that `input_setDefault` uses. -/

def SDLK_BACKSPACE : Int := 8
def SDLK_TAB : Int := 9
def SDLK_PAUSE : Int := 19
def SDLK_ESCAPE : Int := 27
def SDLK_SPACE : Int := 32
def SDLK_0 : Int := 48
def SDLK_1 : Int := 49
def SDLK_2 : Int := 50
def SDLK_3 : Int := 51
def SDLK_4 : Int := 52
def SDLK_5 : Int := 53
def SDLK_6 : Int := 54
def SDLK_7 : Int := 55
def SDLK_8 : Int := 56
def SDLK_9 : Int := 57
def SDLK_BACKQUOTE : Int := 96
def SDLK_a : Int := 97
def SDLK_b : Int := 98
def SDLK_c : Int := 99
def SDLK_e : Int := 101
def SDLK_f : Int := 102
def SDLK_g : Int := 103
def SDLK_h : Int := 104
def SDLK_i : Int := 105
def SDLK_j : Int := 106
def SDLK_l : Int := 108
def SDLK_m : Int := 109
def SDLK_p : Int := 112
def SDLK_r : Int := 114
def SDLK_s : Int := 115
def SDLK_t : Int := 116
def SDLK_w : Int := 119
def SDLK_y : Int := 121
def SDLK_z : Int := 122
def SDLK_KP_MULTIPLY : Int := 268
def SDLK_KP_MINUS : Int := 269
def SDLK_KP_PLUS : Int := 270
def SDLK_UP : Int := 273
def SDLK_DOWN : Int := 274
def SDLK_RIGHT : Int := 275
def SDLK_LEFT : Int := 276
def SDLK_PAGEUP : Int := 280
def SDLK_PAGEDOWN : Int := 281
def SDLK_F2 : Int := 283
def SDLK_LSHIFT : Int := 304

/-- The calls of `input_setKeybind` that `input_setDefault` makes, in order, as their
arguments: name, type, key, modifier. -/
def input_setDefaultCalls (n : NMods) : List (String × KeybindType × Int × Nat) :=
  [ ("accel", .KEYBIND_KEYBOARD, SDLK_UP, n.NMOD_ALL),
    ("afterburn", .KEYBIND_KEYBOARD, SDLK_z, n.NMOD_ALL),
    ("left", .KEYBIND_KEYBOARD, SDLK_LEFT, n.NMOD_ALL),
    ("right", .KEYBIND_KEYBOARD, SDLK_RIGHT, n.NMOD_ALL),
    ("reverse", .KEYBIND_KEYBOARD, SDLK_DOWN, n.NMOD_ALL),
    ("target_next", .KEYBIND_KEYBOARD, SDLK_TAB, n.NMOD_NONE),
    ("target_prev", .KEYBIND_KEYBOARD, SDLK_TAB, n.NMOD_CTRL),
    ("target_nearest", .KEYBIND_KEYBOARD, SDLK_t, n.NMOD_NONE),
    ("target_nextHostile", .KEYBIND_KEYBOARD, SDLK_r, n.NMOD_CTRL),
    ("target_prevHostile", .KEYBIND_NULL, SDLK_UNKNOWN, n.NMOD_NONE),
    ("target_hostile", .KEYBIND_KEYBOARD, SDLK_r, n.NMOD_NONE),
    ("target_clear", .KEYBIND_KEYBOARD, SDLK_BACKSPACE, n.NMOD_ALL),
    ("primary", .KEYBIND_KEYBOARD, SDLK_SPACE, n.NMOD_ALL),
    ("face", .KEYBIND_KEYBOARD, SDLK_a, n.NMOD_ALL),
    ("board", .KEYBIND_KEYBOARD, SDLK_b, n.NMOD_NONE),
    ("safety", .KEYBIND_KEYBOARD, SDLK_s, n.NMOD_CTRL),
    ("weap_all", .KEYBIND_KEYBOARD, SDLK_1, n.NMOD_NONE),
    ("weap_turret", .KEYBIND_KEYBOARD, SDLK_2, n.NMOD_NONE),
    ("weap_forward", .KEYBIND_KEYBOARD, SDLK_3, n.NMOD_NONE),
    ("secondary", .KEYBIND_KEYBOARD, SDLK_LSHIFT, n.NMOD_ALL),
    ("secondary_next", .KEYBIND_KEYBOARD, SDLK_w, n.NMOD_NONE),
    ("secondary_prev", .KEYBIND_KEYBOARD, SDLK_w, n.NMOD_CTRL),
    ("e_targetNext", .KEYBIND_KEYBOARD, SDLK_e, n.NMOD_NONE),
    ("e_targetPrev", .KEYBIND_KEYBOARD, SDLK_e, n.NMOD_CTRL),
    ("e_attack", .KEYBIND_KEYBOARD, SDLK_f, n.NMOD_ALL),
    ("e_hold", .KEYBIND_KEYBOARD, SDLK_g, n.NMOD_ALL),
    ("e_return", .KEYBIND_KEYBOARD, SDLK_c, n.NMOD_CTRL),
    ("e_clear", .KEYBIND_KEYBOARD, SDLK_c, n.NMOD_NONE),
    ("autonav", .KEYBIND_KEYBOARD, SDLK_j, n.NMOD_CTRL),
    ("target_planet", .KEYBIND_KEYBOARD, SDLK_p, n.NMOD_NONE),
    ("land", .KEYBIND_KEYBOARD, SDLK_l, n.NMOD_NONE),
    ("thyperspace", .KEYBIND_KEYBOARD, SDLK_h, n.NMOD_NONE),
    ("starmap", .KEYBIND_KEYBOARD, SDLK_m, n.NMOD_NONE),
    ("jump", .KEYBIND_KEYBOARD, SDLK_j, n.NMOD_NONE),
    ("log_up", .KEYBIND_KEYBOARD, SDLK_PAGEUP, n.NMOD_ALL),
    ("log_down", .KEYBIND_KEYBOARD, SDLK_PAGEDOWN, n.NMOD_ALL),
    ("hail", .KEYBIND_KEYBOARD, SDLK_y, n.NMOD_NONE),
    ("autohail", .KEYBIND_KEYBOARD, SDLK_y, n.NMOD_CTRL),
    ("mapzoomin", .KEYBIND_KEYBOARD, SDLK_KP_PLUS, n.NMOD_ALL),
    ("mapzoomout", .KEYBIND_KEYBOARD, SDLK_KP_MINUS, n.NMOD_ALL),
    ("screenshot", .KEYBIND_KEYBOARD, SDLK_KP_MULTIPLY, n.NMOD_ALL),
    ("pause", .KEYBIND_KEYBOARD, SDLK_PAUSE, n.NMOD_ALL),
    ("speed", .KEYBIND_KEYBOARD, SDLK_BACKQUOTE, n.NMOD_ALL),
    ("menu", .KEYBIND_KEYBOARD, SDLK_ESCAPE, n.NMOD_ALL),
    ("info", .KEYBIND_KEYBOARD, SDLK_i, n.NMOD_NONE),
    ("console", .KEYBIND_KEYBOARD, SDLK_F2, n.NMOD_ALL),
    ("switchtab1", .KEYBIND_KEYBOARD, SDLK_1, n.NMOD_ALT),
    ("switchtab2", .KEYBIND_KEYBOARD, SDLK_2, n.NMOD_ALT),
    ("switchtab3", .KEYBIND_KEYBOARD, SDLK_3, n.NMOD_ALT),
    ("switchtab4", .KEYBIND_KEYBOARD, SDLK_4, n.NMOD_ALT),
    ("switchtab5", .KEYBIND_KEYBOARD, SDLK_5, n.NMOD_ALT),
    ("switchtab6", .KEYBIND_KEYBOARD, SDLK_6, n.NMOD_ALT),
    ("switchtab7", .KEYBIND_KEYBOARD, SDLK_7, n.NMOD_ALT),
    ("switchtab8", .KEYBIND_KEYBOARD, SDLK_8, n.NMOD_ALT),
    ("switchtab9", .KEYBIND_KEYBOARD, SDLK_9, n.NMOD_ALT),
    ("switchtab0", .KEYBIND_KEYBOARD, SDLK_0, n.NMOD_ALT) ]

/-- A run of `input_setKeybind` calls on a table: the table they leave, and for each call
whether it ended in the unknown-command warning. -/
def input_setKeybinds (n : NMods) (binds : List Keybind) :
    List (String × KeybindType × Int × Nat) → List Keybind × List Bool
  | [] => (binds, [])
  | (keybind, type, key, mod) :: calls =>
    let r := input_setKeybind n binds keybind type key mod
    let rest := input_setKeybinds n r.1 calls
    (rest.1, r.2 :: rest.2)

/-- The function `input_setDefault`: its calls of `input_setKeybind`, run in order. -/
def input_setDefault (n : NMods) (binds : List Keybind) : List Keybind × List Bool :=
  input_setKeybinds n binds (input_setDefaultCalls n)

/-- The loop of `input_keyevent` from index `i` with `cnt` names left before "end": every
keyboard binding of `key` whose modifier is `mod_filtered` or `NMOD_ALL`, or any modifier
when the event is a release, has `input_key(i, event, -1., repeat)` run on it. The result is
the state, the indices dispatched and the calls made, in order. -/
def input_keyeventLoop (n : NMods) (t0 t : Nat) (event key : Int) (mod_filtered : Nat)
    (rep : Bool) : Nat → Nat → InputState → InputState × List Nat × List InputCmd
  | _, 0, st => (st, [], [])
  | i, cnt + 1, st =>
    match st.input_keybinds.get? i with
    | none => input_keyeventLoop n t0 t event key mod_filtered rep (i + 1) cnt st
    | some kb =>
      if kb.type = KeybindType.KEYBIND_KEYBOARD ∧ kb.key = key ∧
          (kb.mod = mod_filtered ∨ kb.mod = n.NMOD_ALL ∨ event = KEY_RELEASE) then
        let r := input_key st t0 t i event (-1) rep
        let rest := input_keyeventLoop n t0 t event key mod_filtered rep (i + 1) cnt r.1
        (rest.1, i :: rest.2.1, r.2 ++ rest.2.2)
      else input_keyeventLoop n t0 t event key mod_filtered rep (i + 1) cnt st

/-- The function `input_keyevent`: filters the modifier and runs the loop over the names
before "end". -/
def input_keyevent (n : NMods) (st : InputState) (t0 t : Nat) (event key : Int) (mod : Nat)
    (rep : Bool) : InputState × List Nat × List InputCmd :=
  input_keyeventLoop n t0 t event key (input_translateMod n mod) rep 0
    keybindCommands.length st

/-- The command invocations of a list of bindings: `input_key(i, event, -1., repeat)` run
for each index of the list in turn, each run starting from the state the one before left.
The result is the last state and all the calls made, in order. -/
def input_keyRun (t0 t : Nat) (event : Int) (rep : Bool) :
    InputState → List Nat → InputState × List InputCmd
  | st, [] => (st, [])
  | st, i :: is =>
    let r := input_key st t0 t i event (-1) rep
    let rest := input_keyRun t0 t event rep r.1 is
    (rest.1, r.2 ++ rest.2)

/-- Whether `input_keyevent` is to dispatch a binding, in the words of the description: a
keyboard binding of the key, and either the event is a release or the modifier of the
binding is the translated modifier or `NMOD_ALL`. -/
def keyeventMatches (n : NMods) (event key : Int) (mod : Nat) (kb : Keybind) : Bool :=
  decide (kb.type = KeybindType.KEYBIND_KEYBOARD ∧ kb.key = key ∧
    (event = KEY_RELEASE ∨ kb.mod = input_translateMod n mod ∨ kb.mod = n.NMOD_ALL))

/-- An in-game input state with the default bindings: the table `input_setDefault` leaves
on that of `input_init` (sample modifier masks), toolkit closed, not paused, and the given
player. -/
def defaultInputState (player : Option Pilot) : InputState :=
  { inputStateWith player with
    input_keybinds := (input_setDefault sampleNMods (input_init sampleNMods)).1 }

/-! ## naev.c: step sizes, loading and unloading -/

/-- The `dt` arguments of the `update_routine` calls of a call sequence, in order: each
`update_routine(dt)` opens with `space_update(dt)`, and nothing else calls it. -/
def update_routine_dts (l : List Call) : List ℚ :=
  l.filterMap fun c =>
    match c with
    | .space_update dt => some dt
    | _ => none

/-- The calls `load_all` and `unload_all` make, with their arguments. -/
inductive DataCall where
  | loadscreen_render (done : ℚ) (msg : String)
  | commodity_load
  | factions_load
  | ai_load
  | missions_load
  | events_load
  | spfx_load
  | outfit_load
  | ships_load
  | fleet_load
  | space_load
  | xmlCleanupParser
  | economy_destroy
  | space_exit
  | fleet_free
  | ships_free
  | outfit_free
  | spfx_free
  | missions_free
  | factions_free
  | commodity_free
  | var_cleanup
  deriving DecidableEq

/-- The macro `LOADING_STAGES`, `10.`. -/
def LOADING_STAGES : ℚ := 10

/-- The function `load_all`: its calls, in order. -/
def load_all : List DataCall :=
  [ .loadscreen_render (1 / LOADING_STAGES) "Loading Commodities...",
    .commodity_load,
    .loadscreen_render (2 / LOADING_STAGES) "Loading Factions...",
    .factions_load,
    .loadscreen_render (2 / LOADING_STAGES) "Loading AI...",
    .ai_load,
    .loadscreen_render (3 / LOADING_STAGES) "Loading Missions...",
    .missions_load,
    .loadscreen_render (4 / LOADING_STAGES) "Loading Events...",
    .events_load,
    .loadscreen_render (5 / LOADING_STAGES) "Loading Special Effects...",
    .spfx_load,
    .loadscreen_render (6 / LOADING_STAGES) "Loading Outfits...",
    .outfit_load,
    .loadscreen_render (7 / LOADING_STAGES) "Loading Ships...",
    .ships_load,
    .loadscreen_render (8 / LOADING_STAGES) "Loading Fleets...",
    .fleet_load,
    .loadscreen_render (9 / LOADING_STAGES) "Loading the Universe...",
    .space_load,
    .loadscreen_render 1 "Loading Completed!",
    .xmlCleanupParser ]

/-- The function `unload_all`: its calls, in order. -/
def unload_all : List DataCall :=
  [ .economy_destroy, .space_exit, .fleet_free, .ships_free, .outfit_free, .spfx_free,
    .missions_free, .factions_free, .commodity_free, .var_cleanup ]

/-- The data subsystems that `load_all` loads and `unload_all` frees. -/
inductive Subsystem where
  | commodities
  | factions
  | ai
  | missions
  | events
  | spfx
  | outfits
  | ships
  | fleets
  | space
  | economy
  | variables
  deriving DecidableEq

/-- The subsystem a call loads, for the loading calls. -/
def DataCall.loads : DataCall → Option Subsystem
  | .commodity_load => some .commodities
  | .factions_load => some .factions
  | .ai_load => some .ai
  | .missions_load => some .missions
  | .events_load => some .events
  | .spfx_load => some .spfx
  | .outfit_load => some .outfits
  | .ships_load => some .ships
  | .fleet_load => some .fleets
  | .space_load => some .space
  | _ => none

/-- The subsystem a call frees, for the freeing calls. -/
def DataCall.frees : DataCall → Option Subsystem
  | .economy_destroy => some .economy
  | .space_exit => some .space
  | .fleet_free => some .fleets
  | .ships_free => some .ships
  | .outfit_free => some .outfits
  | .spfx_free => some .spfx
  | .missions_free => some .missions
  | .factions_free => some .factions
  | .commodity_free => some .commodities
  | .var_cleanup => some .variables
  | _ => none

/-- The subsystems `load_all` loads, in the order it loads them. -/
def loadOrder : List Subsystem := load_all.filterMap DataCall.loads

/-- The subsystems `unload_all` frees, in the order it frees them. -/
def unloadOrder : List Subsystem := unload_all.filterMap DataCall.frees

/-- Subsystem `a` is loaded before subsystem `b`: both are loaded, `a` at an earlier
position. -/
def loadedBefore (a b : Subsystem) : Bool :=
  decide (a ∈ loadOrder ∧ b ∈ loadOrder ∧ loadOrder.indexOf a < loadOrder.indexOf b)

/-- The dependencies the comments of `load_all` document, as pairs (needed, needing). -/
def loadDependencies : List (Subsystem × Subsystem) :=
  [ (.commodities, .space),
    (.factions, .fleets), (.factions, .space), (.factions, .missions), (.factions, .ai),
    (.ai, .fleets),
    (.outfits, .ships),
    (.ships, .fleets),
    (.fleets, .space) ]

/-! ## news.c: initialisation -/

/-- A Lua state of the news, as far as `news_init` goes: whether the news script has been
loaded into it. -/
structure LuaState where
  script_loaded : Bool
  deriving DecidableEq

/-- The function `news_init` on the static `news_state` (`none` for `NULL`); `dobuffer` is
what `luaL_dobuffer` returns when the call gets to load the news file (0 for success). The
result is the new `news_state` and the return value. -/
def news_init (news_state : Option LuaState) (dobuffer : Int) : Option LuaState × Int :=
  match news_state with
  | some L => (some L, 0)
  | none =>
    if dobuffer ≠ 0 then (some { script_loaded := false }, -1)
    else (some { script_loaded := true }, 0)

/-- Whether the news script is loaded in a `news_state`. -/
def newsLoaded (news_state : Option LuaState) : Bool :=
  match news_state with
  | some L => L.script_loaded
  | none => false

/-! ## The frame loop -/

theorem update_loop_of_le (t : ℚ) (h : t ≤ fps_min) : update_loop t = ([], t) := by
  rw [update_loop, if_neg (not_lt.mpr h)]

theorem update_loop_of_gt (t : ℚ) (h : fps_min < t) :
    update_loop t =
      (Call.pause_delay (toUnsigned (-fps_min * 1000)) ::
        (update_routine fps_min ++ (update_loop (t - fps_min)).1),
       (update_loop (t - fps_min)).2) := by
  rw [update_loop, if_pos h]

theorem pilots_update_calls_routine (dt : ℚ) :
    pilots_update_calls (update_routine dt) = 1 := by
  simp [pilots_update_calls, update_routine, Call.isPilotsUpdate]

theorem pilots_update_calls_append (a b : List Call) :
    pilots_update_calls (a ++ b) = pilots_update_calls a + pilots_update_calls b := by
  simp [pilots_update_calls]

theorem pilots_update_calls_pause (n : Nat) (l : List Call) :
    pilots_update_calls (Call.pause_delay n :: l) = pilots_update_calls l := by
  simp [pilots_update_calls, Call.isPilotsUpdate]

theorem update_all_skip (s : FrameState) (h : s.real_dt > 1 / 4 ∧ s.fps_skipped = 0) :
    (update_all s).2 = [Call.pause_delay (toUnsigned s.game_dt * 1000 % 2 ^ 32)] := by
  unfold update_all; rw [if_pos h]

theorem update_all_substep (s : FrameState) (h : ¬ (s.real_dt > 1 / 4 ∧ s.fps_skipped = 0))
    (hgt : s.game_dt > fps_min) :
    (update_all s).2 =
      Call.pause_delay (toUnsigned ((s.game_dt - fps_min) * 1000)) ::
        (update_routine fps_min ++ ((update_loop (s.game_dt - fps_min)).1 ++
          update_routine (update_loop (s.game_dt - fps_min)).2)) := by
  unfold update_all; rw [if_neg h, if_pos hgt]

theorem update_all_single (s : FrameState) (h : ¬ (s.real_dt > 1 / 4 ∧ s.fps_skipped = 0))
    (hle : ¬ s.game_dt > fps_min) :
    (update_all s).2 = update_routine s.game_dt := by
  unfold update_all; rw [if_neg h, if_neg hle]

/-- C1 fails: in the call sequence of `update_routine` the first `pilots_update` does not
come before the first `weapons_update`. -/
theorem update_routine_pilots_not_first :
    ¬ (firstCall Call.isPilotsUpdate (update_routine 1)
        < firstCall Call.isWeaponsUpdate (update_routine 1)) := by
  decide

/-- C1, amended: in every simulation step `update_routine(dt)` calls `weapons_update` and
`pilots_update` once each, `weapons_update` second and `pilots_update` fourth, so the
weapon update precedes the pilots' update. -/
theorem update_routine_weapons_before_pilots (dt : ℚ) :
    firstCall Call.isWeaponsUpdate (update_routine dt) = 1 ∧
    firstCall Call.isPilotsUpdate (update_routine dt) = 3 ∧
    firstCall Call.isWeaponsUpdate (update_routine dt)
      < firstCall Call.isPilotsUpdate (update_routine dt) ∧
    (update_routine dt).countP Call.isWeaponsUpdate = 1 ∧
    (update_routine dt).countP Call.isPilotsUpdate = 1 := by
  simp [firstCall, update_routine, List.findIdx_cons, Call.isPilotsUpdate, Call.isWeaponsUpdate]

/-- C2 fails: with `real_dt = game_dt = 1/20` and `fps_skipped = 0` one call of
`update_all` dispatches `pilots_update` three times; with `real_dt = 3/10` it dispatches
it not at all. -/
theorem update_all_pilots_update_thrice :
    (0 : ℚ) ≤ 1 / 20 ∧ pilots_update_calls (update_all ⟨1 / 20, 1 / 20, 0⟩).2 = 3 ∧
    pilots_update_calls (update_all ⟨3 / 10, 3 / 10, 0⟩).2 = 0 := by
  refine ⟨by norm_num, ?_, ?_⟩
  · have h1 : update_loop (1 / 20 - fps_min) =
        (Call.pause_delay (toUnsigned (-fps_min * 1000)) :: (update_routine fps_min ++ []),
          1 / 100) := by
      rw [update_loop_of_gt _ (by norm_num [fps_min]),
        update_loop_of_le _ (by norm_num [fps_min])]
      norm_num [fps_min]
    rw [update_all_substep _ (by norm_num) (by norm_num [fps_min])]
    simp only [h1, pilots_update_calls_pause,
      pilots_update_calls_append, pilots_update_calls_routine]
    rfl
  · rw [update_all_skip _ (by norm_num)]
    rfl

/-- C2, amended: a call of `update_all` dispatches `pilots_update` exactly once iff the
frame is not skipped (not both `real_dt > 0.25` and `fps_skipped = 0`) and
`game_dt <= 1/50`; a skipped frame dispatches it zero times and a frame with
`game_dt > 1/50` at least twice. -/
theorem update_all_pilots_update_once (s : FrameState) :
    (pilots_update_calls (update_all s).2 = 1 ↔
      ¬ (s.real_dt > 1 / 4 ∧ s.fps_skipped = 0) ∧ s.game_dt ≤ fps_min) ∧
    ((s.real_dt > 1 / 4 ∧ s.fps_skipped = 0) → pilots_update_calls (update_all s).2 = 0) ∧
    (¬ (s.real_dt > 1 / 4 ∧ s.fps_skipped = 0) → s.game_dt > fps_min →
      2 ≤ pilots_update_calls (update_all s).2) := by
  by_cases hskip : s.real_dt > 1 / 4 ∧ s.fps_skipped = 0
  · have h0 : pilots_update_calls (update_all s).2 = 0 := by
      rw [update_all_skip s hskip]; rfl
    refine ⟨⟨fun h => ?_, fun h => absurd hskip h.1⟩, fun _ => h0, fun h => absurd hskip h⟩
    rw [h0] at h; exact absurd h (by decide)
  · by_cases hgt : s.game_dt > fps_min
    · have h2 : 2 ≤ pilots_update_calls (update_all s).2 := by
        rw [update_all_substep s hskip hgt]
        simp only [pilots_update_calls_pause, pilots_update_calls_append,
          pilots_update_calls_routine]
        omega
      refine ⟨⟨fun h => ?_, fun h => absurd hgt (not_lt.mpr h.2)⟩,
        fun h => absurd h hskip, fun _ _ => h2⟩
      omega
    · have h1 : pilots_update_calls (update_all s).2 = 1 := by
        rw [update_all_single s hskip hgt]; exact pilots_update_calls_routine _
      exact ⟨⟨fun _ => ⟨hskip, not_lt.mp hgt⟩, fun _ => h1⟩,
        fun h => absurd h hskip, fun _ h => absurd h hgt⟩

/-- C2, amended, on a frame of ten milliseconds: one dispatch of `pilots_update`. -/
theorem update_all_pilots_update_once_witness :
    pilots_update_calls (update_all ⟨1 / 100, 1 / 100, 0⟩).2 = 1 :=
  (update_all_pilots_update_once ⟨1 / 100, 1 / 100, 0⟩).1.mpr
    ⟨by norm_num, by norm_num [fps_min]⟩

/-! ## Flag words -/

theorem and_two_pow_ne_zero (w j : Nat) : w &&& 2 ^ j ≠ 0 ↔ w.testBit j = true := by
  constructor
  · intro h
    obtain ⟨i, hi⟩ := Nat.ne_zero_implies_bit_true h
    rw [Nat.testBit_and, Nat.testBit_two_pow] at hi
    simp only [Bool.and_eq_true, decide_eq_true_eq] at hi
    rw [hi.2]; exact hi.1
  · intro h h0
    have : (w &&& 2 ^ j).testBit j = true := by
      rw [Nat.testBit_and, h, Nat.testBit_two_pow_self]; rfl
    rw [h0, Nat.zero_testBit] at this
    exact Bool.noConfusion this

theorem isFlag_setFlag_pow (w i j : Nat) (hj : j < 32) :
    pilot_isFlag (pilot_setFlag w (2 ^ i)) (2 ^ j) ≠ 0 ↔
      (j = i ∨ pilot_isFlag w (2 ^ j) ≠ 0) := by
  unfold pilot_isFlag pilot_setFlag FLAG_WORD
  rw [and_two_pow_ne_zero, and_two_pow_ne_zero, Nat.testBit_mod_two_pow, Nat.testBit_or,
    Nat.testBit_two_pow]
  simp [hj]
  tauto

theorem isFlag_rmFlag_pow (w i j : Nat) (hi : i < 32) (hj : j < 32) :
    pilot_isFlag (pilot_rmFlag w (2 ^ i)) (2 ^ j) ≠ 0 ↔
      (j ≠ i ∧ pilot_isFlag w (2 ^ j) ≠ 0) := by
  unfold pilot_isFlag pilot_rmFlag FLAG_WORD
  have hlt : 2 ^ i < 2 ^ 32 := Nat.pow_lt_pow_right (by decide) hi
  have e : 2 ^ 32 - 1 - 2 ^ i % 2 ^ 32 = 2 ^ 32 - (2 ^ i + 1) := by
    rw [Nat.mod_eq_of_lt hlt]; omega
  rw [e, and_two_pow_ne_zero, and_two_pow_ne_zero, Nat.testBit_and,
    Nat.testBit_two_pow_sub_succ hlt, Nat.testBit_two_pow]
  simp [hj]
  tauto

theorem pilotFlags_pow : ∀ f ∈ pilotFlags, ∃ i, i < 32 ∧ f = 2 ^ i := by
  decide

theorem pilotFlags_eq_range : pilotFlags = (List.range 32).map (fun i => 2 ^ i) := by
  decide

theorem isFlag_setFlag_mem (w f g : Nat) (hf : f ∈ pilotFlags) (hg : g ∈ pilotFlags) :
    pilot_isFlag (pilot_setFlag w f) g ≠ 0 ↔ (g = f ∨ pilot_isFlag w g ≠ 0) := by
  obtain ⟨i, _, rfl⟩ := pilotFlags_pow f hf
  obtain ⟨j, hj, rfl⟩ := pilotFlags_pow g hg
  rw [isFlag_setFlag_pow w i j hj]
  constructor
  · rintro (h | h)
    · exact Or.inl (by rw [h])
    · exact Or.inr h
  · rintro (h | h)
    · exact Or.inl (Nat.pow_right_injective (le_refl 2) h)
    · exact Or.inr h

theorem isFlag_rmFlag_mem (w f g : Nat) (hf : f ∈ pilotFlags) (hg : g ∈ pilotFlags) :
    pilot_isFlag (pilot_rmFlag w f) g ≠ 0 ↔ (g ≠ f ∧ pilot_isFlag w g ≠ 0) := by
  obtain ⟨i, hi, rfl⟩ := pilotFlags_pow f hf
  obtain ⟨j, hj, rfl⟩ := pilotFlags_pow g hg
  rw [isFlag_rmFlag_pow w i j hi hj]
  constructor
  · rintro ⟨h, h'⟩
    exact ⟨fun e => h (Nat.pow_right_injective (le_refl 2) e), h'⟩
  · rintro ⟨h, h'⟩
    exact ⟨fun e => h (by rw [e]), h'⟩

/-- C7: the 32 `PILOT_*` masks are the 32 distinct bits of the flag word, the four
hyperspace-phase flags are four different ones of them, and for every flag word and flags
`f`, `g`, after `pilot_setFlag(p,f)` the test `pilot_isFlag(p,g)` is non-zero iff `g = f` or
`g` was set, and after `pilot_rmFlag(p,f)` it is non-zero iff `g ≠ f` and `g` was set. -/
theorem pilot_flags_independent (w f g : Nat) (hf : f ∈ pilotFlags) (hg : g ∈ pilotFlags) :
    pilotFlags.length = 32 ∧ pilotFlags.Nodup ∧
    (∀ k ∈ pilotFlags, ∃ i, i < 32 ∧ k = 2 ^ i) ∧
    (∀ k ∈ hypFlags, k ∈ pilotFlags) ∧ hypFlags.Nodup ∧
    (pilot_isFlag (pilot_setFlag w f) g ≠ 0 ↔ (g = f ∨ pilot_isFlag w g ≠ 0)) ∧
    (pilot_isFlag (pilot_rmFlag w f) g ≠ 0 ↔ (g ≠ f ∧ pilot_isFlag w g ≠ 0)) :=
  ⟨by decide, by decide, pilotFlags_pow, by decide, by decide, isFlag_setFlag_mem w f g hf hg,
    isFlag_rmFlag_mem w f g hf hg⟩

/-- C7 at a concrete word: clearing `PILOT_HYP_BEGIN` in a word holding `PILOT_HYP_PREP` and
`PILOT_DEAD`, then testing `PILOT_HYP_PREP`. -/
theorem pilot_flags_independent_witness :
    PILOT_HYP_BEGIN ∈ pilotFlags ∧ PILOT_HYP_PREP ∈ pilotFlags ∧
    (pilot_isFlag (pilot_rmFlag (PILOT_HYP_PREP ||| PILOT_DEAD) PILOT_HYP_BEGIN)
        PILOT_HYP_PREP ≠ 0 ↔
      (PILOT_HYP_PREP ≠ PILOT_HYP_BEGIN ∧
        pilot_isFlag (PILOT_HYP_PREP ||| PILOT_DEAD) PILOT_HYP_PREP ≠ 0)) :=
  ⟨by decide, by decide,
    (pilot_flags_independent (PILOT_HYP_PREP ||| PILOT_DEAD) PILOT_HYP_BEGIN PILOT_HYP_PREP
      (by decide) (by decide)).2.2.2.2.2.2⟩

/-! ## Combat resolution -/

theorem pilot_hit_shield (p : Pilot) (shooter : Nat) (d : ℚ) :
    (pilot_hit p shooter d).1.shield = p.shield - min p.shield d := rfl

theorem pilot_hit_armour (p : Pilot) (shooter : Nat) (d : ℚ) :
    (pilot_hit p shooter d).1.armour =
      if p.armour - (d - min p.shield d) ≤ 0 then 0 else p.armour - (d - min p.shield d) :=
  rfl

theorem pilot_hit_shield_eq (p : Pilot) (shooter : Nat) (d : ℚ) :
    (pilot_hit p shooter d).1.shield = max 0 (p.shield - d) := by
  rw [pilot_hit_shield]
  rcases le_total p.shield d with h | h
  · rw [min_eq_left h, max_eq_left (by linarith)]; ring
  · rw [min_eq_right h, max_eq_right (by linarith)]

theorem pilot_hit_armour_eq (p : Pilot) (shooter : Nat) (d : ℚ) :
    (pilot_hit p shooter d).1.armour = max 0 (p.armour - max 0 (d - p.shield)) := by
  rw [pilot_hit_armour]
  have e : d - min p.shield d = max 0 (d - p.shield) := by
    rcases le_total p.shield d with h | h
    · rw [min_eq_left h, max_eq_right (by linarith)]
    · rw [min_eq_right h, max_eq_left (by linarith)]; ring
  rw [e]
  split
  · next h => rw [max_eq_left h]
  · next h => rw [max_eq_right (le_of_lt (not_le.mp h))]

theorem isFlag_ite_setFlag_zero (c : Prop) [Decidable c] (w f g : Nat)
    (hf : f ∈ pilotFlags) (hg : g ∈ pilotFlags) (hne : g ≠ f) :
    pilot_isFlag (if c then pilot_setFlag w f else w) g = 0 ↔ pilot_isFlag w g = 0 := by
  have h := isFlag_setFlag_mem w f g hf hg
  split
  · constructor
    · intro h0
      by_contra h1
      exact (h.mpr (Or.inr h1)) h0
    · intro h0
      by_contra h1
      rcases h.mp h1 with h2 | h2
      · exact hne h2
      · exact h2 h0
  · exact Iff.rfl

theorem pilot_hit_dead_zero (p : Pilot) (shooter : Nat) (d : ℚ) :
    pilot_isFlag (pilot_hit p shooter d).1.flags PILOT_DEAD = 0 ↔
      (pilot_isFlag p.flags PILOT_DEAD = 0 ∧ ¬ p.armour - (d - min p.shield d) ≤ 0) := by
  have hD : PILOT_DEAD ∈ pilotFlags := by decide
  simp only [pilot_hit]
  rw [isFlag_ite_setFlag_zero _ _ PILOT_HOSTILE PILOT_DEAD (by decide) hD (by decide)]
  have h1 := isFlag_ite_setFlag_zero
    (pilot_isFlag p.flags PILOT_DISABLED = 0 ∧
      p.armour - (d - min p.shield d) < PILOT_DISABLED_ARMOR * p.armour_max)
    p.flags PILOT_DISABLED PILOT_DEAD (by decide) hD (by decide)
  generalize (if pilot_isFlag p.flags PILOT_DISABLED = 0 ∧
      p.armour - (d - min p.shield d) < PILOT_DISABLED_ARMOR * p.armour_max
    then pilot_setFlag p.flags PILOT_DISABLED else p.flags) = F1 at h1 ⊢
  by_cases hdie : p.armour - (d - min p.shield d) ≤ 0 ∧ pilot_isFlag F1 PILOT_DEAD = 0
  · rw [if_pos hdie]
    have h2 := (isFlag_setFlag_mem F1 PILOT_DEAD PILOT_DEAD hD hD).mpr (Or.inl rfl)
    constructor
    · intro h0; exact absurd h0 h2
    · intro h0; exact absurd hdie.1 h0.2
  · rw [if_neg hdie, h1]
    rw [h1] at hdie
    constructor
    · intro h0; exact ⟨h0, fun h3 => hdie ⟨h3, h0⟩⟩
    · intro h0; exact h0.1

theorem pilot_hit_deaths (p : Pilot) (shooter : Nat) (d : ℚ) :
    (pilot_hit p shooter d).2.1.count PILOT_HOOK_DEATH =
      if pilot_isFlag p.flags PILOT_DEAD = 0 ∧ p.armour - (d - min p.shield d) ≤ 0 then 1
      else 0 := by
  have hD : PILOT_DEAD ∈ pilotFlags := by decide
  have h1 := isFlag_ite_setFlag_zero
    (pilot_isFlag p.flags PILOT_DISABLED = 0 ∧
      p.armour - (d - min p.shield d) < PILOT_DISABLED_ARMOR * p.armour_max)
    p.flags PILOT_DISABLED PILOT_DEAD (by decide) hD (by decide)
  have hc : ∀ (a b : Prop) [Decidable a] [Decidable b],
      ((if a then [PILOT_HOOK_DISABLE] else []) ++
        (if b then [PILOT_HOOK_DEATH] else [])).count PILOT_HOOK_DEATH =
          if b then 1 else 0 := by
    intro a b _ _
    by_cases ha : a <;> by_cases hb : b <;> simp [ha, hb] <;> decide
  simp only [pilot_hit]
  rw [hc]
  generalize (if pilot_isFlag p.flags PILOT_DISABLED = 0 ∧
      p.armour - (d - min p.shield d) < PILOT_DISABLED_ARMOR * p.armour_max
    then pilot_setFlag p.flags PILOT_DISABLED else p.flags) = F1 at h1 ⊢
  by_cases hz : pilot_isFlag p.flags PILOT_DEAD = 0
  · have hz1 := h1.mpr hz
    by_cases hle : p.armour - (d - min p.shield d) ≤ 0
    · rw [if_pos ⟨hle, hz1⟩, if_pos ⟨hz, hle⟩]
    · rw [if_neg (fun h => hle h.1), if_neg (fun h => hle h.2)]
  · have hz1 : ¬ pilot_isFlag F1 PILOT_DEAD = 0 := fun h => hz (h1.mp h)
    rw [if_neg (fun h => hz1 h.2), if_neg (fun h => hz h.1)]

theorem pilot_hits_facts (shooter : Nat) (ds : List ℚ) :
    ∀ p : Pilot, (∀ x ∈ ds, 0 < x) → 0 ≤ p.shield → 0 ≤ p.armour →
      0 ≤ (pilot_hits p shooter ds).1.shield ∧
      0 ≤ (pilot_hits p shooter ds).1.armour ∧
      (pilot_hits p shooter ds).1.shield ≤ p.shield ∧
      (pilot_hits p shooter ds).1.armour ≤ p.armour ∧
      (pilot_isFlag p.flags PILOT_DEAD ≠ 0 →
        pilot_isFlag (pilot_hits p shooter ds).1.flags PILOT_DEAD ≠ 0) ∧
      ((p.armour = 0 → pilot_isFlag p.flags PILOT_DEAD ≠ 0) →
        (pilot_hits p shooter ds).1.armour = 0 →
          pilot_isFlag (pilot_hits p shooter ds).1.flags PILOT_DEAD ≠ 0) ∧
      ((p.armour = 0 → pilot_isFlag p.flags PILOT_DEAD ≠ 0) →
        (pilot_hits p shooter ds).2.count PILOT_HOOK_DEATH =
          if pilot_isFlag p.flags PILOT_DEAD = 0 ∧ (pilot_hits p shooter ds).1.armour = 0
          then 1 else 0) := by
  induction ds with
  | nil =>
    intro p _ hs ha
    refine ⟨hs, ha, le_refl _, le_refl _, fun h => h, fun hc h0 => hc h0, fun hc => ?_⟩
    show ([] : List Nat).count PILOT_HOOK_DEATH = _
    by_cases hz : pilot_isFlag p.flags PILOT_DEAD = 0
    · by_cases h0 : p.armour = 0
      · exact absurd hz (hc h0)
      · rw [if_neg (fun h => h0 h.2)]; rfl
    · rw [if_neg (fun h => hz h.1)]; rfl
  | cons d ds ih =>
    intro p hds hs ha
    have hd : 0 < d := hds d (List.mem_cons_self _ _)
    have hds1 : ∀ x ∈ ds, 0 < x := fun x hx => hds x (List.mem_cons_of_mem _ hx)
    have hsh := pilot_hit_shield_eq p shooter d
    have har := pilot_hit_armour_eq p shooter d
    have har1 := pilot_hit_armour p shooter d
    have hdz := pilot_hit_dead_zero p shooter d
    have hdc := pilot_hit_deaths p shooter d
    have hs1 : 0 ≤ (pilot_hit p shooter d).1.shield := by rw [hsh]; exact le_max_left _ _
    have ha1 : 0 ≤ (pilot_hit p shooter d).1.armour := by rw [har]; exact le_max_left _ _
    have hs2 : (pilot_hit p shooter d).1.shield ≤ p.shield := by
      rw [hsh]; exact max_le hs (by linarith)
    have ha2 : (pilot_hit p shooter d).1.armour ≤ p.armour := by
      rw [har]; exact max_le ha (by linarith [le_max_left 0 (d - p.shield)])
    obtain ⟨i1, i2, i3, i4, i5, i6, i7⟩ := ih (pilot_hit p shooter d).1 hds1 hs1 ha1
    have hr : pilot_hits p shooter (d :: ds) =
        ((pilot_hits (pilot_hit p shooter d).1 shooter ds).1,
          (pilot_hit p shooter d).2.1 ++ (pilot_hits (pilot_hit p shooter d).1 shooter ds).2) :=
      rfl
    -- the state after the first hit is consistent: zero armour carries the dying flag
    have hcons1 : (pilot_hit p shooter d).1.armour = 0 →
        pilot_isFlag (pilot_hit p shooter d).1.flags PILOT_DEAD ≠ 0 := by
      intro h0 hz
      rw [hdz] at hz
      rw [har1, if_neg hz.2] at h0
      exact hz.2 (le_of_eq h0)
    rw [hr]
    refine ⟨i1, i2, le_trans i3 hs2, le_trans i4 ha2, ?_, ?_, ?_⟩
    · intro hp
      apply i5
      intro hz
      exact hp ((hdz.mp hz).1)
    · intro _ h0
      exact i6 hcons1 h0
    · intro hc
      show ((pilot_hit p shooter d).2.1 ++ _).count PILOT_HOOK_DEATH = _
      rw [List.count_append, hdc, i7 hcons1]
      by_cases hz : pilot_isFlag p.flags PILOT_DEAD = 0
      · by_cases hle : p.armour - (d - min p.shield d) ≤ 0
        · have hz1 : ¬ pilot_isFlag (pilot_hit p shooter d).1.flags PILOT_DEAD = 0 :=
            fun h => (hdz.mp h).2 hle
          have h00 : (pilot_hit p shooter d).1.armour = 0 := by rw [har1, if_pos hle]
          have hfin : (pilot_hits (pilot_hit p shooter d).1 shooter ds).1.armour = 0 :=
            le_antisymm (h00 ▸ i4) i2
          rw [if_pos ⟨hz, hle⟩, if_neg (fun h => hz1 h.1), if_pos ⟨hz, hfin⟩]
        · have hz1 : pilot_isFlag (pilot_hit p shooter d).1.flags PILOT_DEAD = 0 :=
            hdz.mpr ⟨hz, hle⟩
          rw [if_neg (fun h => hle h.2)]
          by_cases hfin : (pilot_hits (pilot_hit p shooter d).1 shooter ds).1.armour = 0
          · rw [if_pos ⟨hz1, hfin⟩, if_pos ⟨hz, hfin⟩]
          · rw [if_neg (fun h => hfin h.2), if_neg (fun h => hfin h.2)]
      · have hz1 : ¬ pilot_isFlag (pilot_hit p shooter d).1.flags PILOT_DEAD = 0 :=
          fun h => hz (hdz.mp h).1
        rw [if_neg (fun h => hz h.1), if_neg (fun h => hz1 h.1), if_neg (fun h => hz h.1)]

/-- C3: `pilot_hit` with damage `d > 0` takes the damage from the shield first and only the
overflow from the armour: the new shield is `max 0 (s - d)`, the new armour
`max 0 (a - max 0 (d - s))`, and neither grows; over any run of positive hits neither
grows, a pilot whose armour has reached 0 has `PILOT_DEAD` set, `PILOT_DEAD` once set stays
set, and the DEATH hook has fired exactly once if the pilot was not dying before and its
armour reached 0, and not at all otherwise, however many hits follow. -/
theorem pilot_hit_shield_then_armour (p : Pilot) (shooter : Nat) (d : ℚ) (ds : List ℚ)
    (hd : 0 < d) (hds : ∀ x ∈ ds, 0 < x) (hs : 0 ≤ p.shield) (ha : 0 ≤ p.armour)
    (hcons : p.armour = 0 → pilot_isFlag p.flags PILOT_DEAD ≠ 0) :
    (pilot_hit p shooter d).1.shield = max 0 (p.shield - d) ∧
    (pilot_hit p shooter d).1.armour = max 0 (p.armour - max 0 (d - p.shield)) ∧
    (pilot_hit p shooter d).1.shield ≤ p.shield ∧
    (pilot_hit p shooter d).1.armour ≤ p.armour ∧
    (pilot_hits p shooter ds).1.shield ≤ p.shield ∧
    (pilot_hits p shooter ds).1.armour ≤ p.armour ∧
    ((pilot_hits p shooter ds).1.armour = 0 →
      pilot_isFlag (pilot_hits p shooter ds).1.flags PILOT_DEAD ≠ 0) ∧
    (pilot_isFlag p.flags PILOT_DEAD ≠ 0 →
      pilot_isFlag (pilot_hits p shooter ds).1.flags PILOT_DEAD ≠ 0) ∧
    (pilot_hits p shooter ds).2.count PILOT_HOOK_DEATH =
      (if pilot_isFlag p.flags PILOT_DEAD = 0 ∧ (pilot_hits p shooter ds).1.armour = 0
        then 1 else 0) := by
  obtain ⟨_, _, i3, i4, i5, i6, i7⟩ := pilot_hits_facts shooter ds p hds hs ha
  have h1 := pilot_hits_facts shooter [d] p
    (fun x hx => by rw [List.mem_singleton.mp hx]; exact hd) hs ha
  exact ⟨pilot_hit_shield_eq p shooter d, pilot_hit_armour_eq p shooter d, h1.2.2.1,
    h1.2.2.2.1, i3, i4, i6 hcons, i5, i7 hcons⟩

/-- C3 on the scenario of the spec: shield 50 and armour 100; a hit of 70 leaves shield 0
and armour 80; a further hit of 100 leaves armour 0 with `PILOT_DEAD` set; after two more
hits the DEATH hook has still fired once. -/
theorem pilot_hit_scenario :
    (pilot_hit scenarioPilot 1 70).1.shield = 0 ∧
    (pilot_hit scenarioPilot 1 70).1.armour = 80 ∧
    (pilot_hits scenarioPilot 1 [70, 100]).1.armour = 0 ∧
    pilot_isFlag (pilot_hits scenarioPilot 1 [70, 100]).1.flags PILOT_DEAD ≠ 0 ∧
    (pilot_hits scenarioPilot 1 [70, 100, 100, 5]).2.count PILOT_HOOK_DEATH = 1 := by
  have hs : (0 : ℚ) ≤ scenarioPilot.shield := by norm_num [scenarioPilot]
  have ha : (0 : ℚ) ≤ scenarioPilot.armour := by norm_num [scenarioPilot]
  have hc : scenarioPilot.armour = 0 → pilot_isFlag scenarioPilot.flags PILOT_DEAD ≠ 0 := by
    intro h; norm_num [scenarioPilot] at h
  have hz : pilot_isFlag scenarioPilot.flags PILOT_DEAD = 0 := by decide
  have A := pilot_hit_shield_then_armour scenarioPilot 1 70 [70, 100] (by norm_num)
    (by intro x hx; simp at hx; rcases hx with rfl | rfl <;> norm_num) hs ha hc
  have B := pilot_hit_shield_then_armour scenarioPilot 1 70 [70, 100, 100, 5] (by norm_num)
    (by intro x hx; simp at hx; rcases hx with rfl | rfl | rfl | rfl <;> norm_num) hs ha hc
  have e1 : (pilot_hit scenarioPilot 1 70).1.shield = 0 := by
    rw [A.1]; norm_num [scenarioPilot]
  have e2 : (pilot_hit scenarioPilot 1 70).1.armour = 80 := by
    rw [A.2.1]; norm_num [scenarioPilot]
  have e3 : (pilot_hits scenarioPilot 1 [70, 100]).1.armour = 0 := by
    show (pilot_hit (pilot_hit scenarioPilot 1 70).1 1 100).1.armour = 0
    rw [pilot_hit_armour_eq, e1, e2]; norm_num
  have e4 : (pilot_hits scenarioPilot 1 [70, 100, 100, 5]).1.armour = 0 := by
    have h5 := (pilot_hits_facts 1 [100, 5] (pilot_hits scenarioPilot 1 [70, 100]).1
      (by intro x hx; simp at hx; rcases hx with rfl | rfl <;> norm_num)
      (pilot_hits_facts 1 [70, 100] scenarioPilot
        (by intro x hx; simp at hx; rcases hx with rfl | rfl <;> norm_num) hs ha).1
      (le_of_eq e3.symm))
    exact le_antisymm (e3 ▸ h5.2.2.2.1) h5.2.1
  refine ⟨e1, e2, e3, A.2.2.2.2.2.2.1 e3, ?_⟩
  rw [B.2.2.2.2.2.2.2.2, if_pos ⟨hz, e4⟩]

/-! ## The travel state machine -/

theorem hypFlags_sub : ∀ f ∈ hypFlags, f ∈ pilotFlags := by
  decide

theorem mem_hypPhases (w g : Nat) :
    g ∈ hypPhases w ↔ g ∈ hypFlags ∧ pilot_isFlag w g ≠ 0 := by
  simp [hypPhases, List.mem_filter]

theorem hypPhases_eq_filter (w : Nat) (q : Nat → Bool)
    (h : ∀ g ∈ hypFlags, (pilot_isFlag w g ≠ 0 ↔ q g = true)) :
    hypPhases w = hypFlags.filter q := by
  unfold hypPhases
  apply List.filter_congr
  intro g hg
  have := h g hg
  by_cases hq : q g = true
  · rw [hq]; exact decide_eq_true (this.mpr hq)
  · rw [Bool.not_eq_true] at hq
    rw [hq]
    exact decide_eq_false (fun h1 => by rw [this.mp h1] at hq; exact Bool.noConfusion hq)

theorem hypFlags_filter_eq (Y : Nat) (hY : Y ∈ hypFlags) :
    hypFlags.filter (fun g => decide (g = Y)) = [Y] := by
  simp only [hypFlags, List.mem_cons, List.mem_singleton, List.not_mem_nil, or_false] at hY
  rcases hY with rfl | rfl | rfl | rfl <;> decide

theorem hypFlags_filter_false : hypFlags.filter (fun _ => false) = [] := by
  decide

theorem hypPhases_of_set (w Y : Nat) (hY : Y ∈ hypFlags) (h : hypPhases w = []) :
    hypPhases (pilot_setFlag w Y) = [Y] := by
  rw [hypPhases_eq_filter _ (fun g => decide (g = Y)), hypFlags_filter_eq Y hY]
  intro g hg
  rw [isFlag_setFlag_mem w Y g (hypFlags_sub Y hY) (hypFlags_sub g hg), decide_eq_true_iff]
  have hn : ¬ pilot_isFlag w g ≠ 0 := fun h1 => by
    have : g ∈ hypPhases w := (mem_hypPhases w g).mpr ⟨hg, h1⟩
    rw [h] at this
    exact List.not_mem_nil _ this
  tauto

theorem hypPhases_of_rm_set (w X Y : Nat) (hX : X ∈ hypFlags) (hY : Y ∈ hypFlags)
    (h : hypPhases w = [X]) :
    hypPhases (pilot_setFlag (pilot_rmFlag w X) Y) = [Y] := by
  rw [hypPhases_eq_filter _ (fun g => decide (g = Y)), hypFlags_filter_eq Y hY]
  intro g hg
  rw [isFlag_setFlag_mem _ Y g (hypFlags_sub Y hY) (hypFlags_sub g hg),
    isFlag_rmFlag_mem w X g (hypFlags_sub X hX) (hypFlags_sub g hg), decide_eq_true_iff]
  have hn : pilot_isFlag w g ≠ 0 → g = X := fun h1 => by
    have : g ∈ hypPhases w := (mem_hypPhases w g).mpr ⟨hg, h1⟩
    rw [h] at this
    exact List.mem_singleton.mp this
  tauto

theorem hypPhases_of_rm (w X : Nat) (hX : X ∈ hypFlags) (h : hypPhases w = [X]) :
    hypPhases (pilot_rmFlag w X) = [] := by
  rw [hypPhases_eq_filter _ (fun _ => false), hypFlags_filter_false]
  intro g hg
  rw [isFlag_rmFlag_mem w X g (hypFlags_sub X hX) (hypFlags_sub g hg)]
  have hn : pilot_isFlag w g ≠ 0 → g = X := fun h1 => by
    have : g ∈ hypPhases w := (mem_hypPhases w g).mpr ⟨hg, h1⟩
    rw [h] at this
    exact List.mem_singleton.mp this
  constructor
  · intro h1; exact absurd (hn h1.2) h1.1
  · intro h1; exact Bool.noConfusion h1

theorem hypPhases_of_rm_rm (w X : Nat) (h : hypPhases w = [X]) :
    hypPhases (pilot_rmFlag (pilot_rmFlag w PILOT_HYP_PREP) PILOT_HYP_BEGIN) = [] ∨
      (X ≠ PILOT_HYP_PREP ∧ X ≠ PILOT_HYP_BEGIN) := by
  by_cases hx : X = PILOT_HYP_PREP ∨ X = PILOT_HYP_BEGIN
  · left
    rw [hypPhases_eq_filter _ (fun _ => false), hypFlags_filter_false]
    intro g hg
    rw [isFlag_rmFlag_mem _ PILOT_HYP_BEGIN g (by decide) (hypFlags_sub g hg),
      isFlag_rmFlag_mem w PILOT_HYP_PREP g (by decide) (hypFlags_sub g hg)]
    have hn : pilot_isFlag w g ≠ 0 → g = X := fun h1 => by
      have : g ∈ hypPhases w := (mem_hypPhases w g).mpr ⟨hg, h1⟩
      rw [h] at this
      exact List.mem_singleton.mp this
    constructor
    · rintro ⟨h1, h2, h3⟩
      rcases hx with hx | hx
      · exact absurd ((hn h3).trans hx) h2
      · exact absurd ((hn h3).trans hx) h1
    · intro h1; exact Bool.noConfusion h1
  · right
    exact ⟨fun e => hx (Or.inl e), fun e => hx (Or.inr e)⟩

theorem hypPhases_single (w X : Nat) (hX : X ∈ hypFlags) (hinv : (hypPhases w).length ≤ 1)
    (h : pilot_isFlag w X ≠ 0) : hypPhases w = [X] := by
  have hm : X ∈ hypPhases w := (mem_hypPhases w X).mpr ⟨hX, h⟩
  match hl : hypPhases w, hinv, hm with
  | [y], _, hm' => rw [List.mem_singleton.mp hm']
  | [], _, hm' => exact absurd hm' (List.not_mem_nil _)
  | _ :: _ :: _, hinv', _ => simp at hinv'

theorem hypPhases_nil (w : Nat)
    (h1 : ¬ pilot_isFlag w PILOT_HYP_PREP ≠ 0) (h2 : ¬ pilot_isFlag w PILOT_HYP_BEGIN ≠ 0)
    (h3 : ¬ pilot_isFlag w PILOT_HYPERSPACE ≠ 0) (h4 : ¬ pilot_isFlag w PILOT_HYP_END ≠ 0) :
    hypPhases w = [] := by
  rw [hypPhases_eq_filter _ (fun _ => false), hypFlags_filter_false]
  intro g hg
  simp only [hypFlags, List.mem_cons, List.mem_singleton, List.not_mem_nil, or_false] at hg
  rcases hg with rfl | rfl | rfl | rfl <;> simp_all

theorem hypStep_ok (p : Pilot) (op : HypOp) (hinv : (hypPhases p.flags).length ≤ 1) :
    (hypPhases (hypApply p op).flags).length ≤ 1 ∧
      hypStepOK op (hypPhases p.flags) (hypPhases (hypApply p op).flags) := by
  have m1 : PILOT_HYP_PREP ∈ hypFlags := by decide
  have m2 : PILOT_HYP_BEGIN ∈ hypFlags := by decide
  have m3 : PILOT_HYPERSPACE ∈ hypFlags := by decide
  have m4 : PILOT_HYP_END ∈ hypFlags := by decide
  have same : (hypPhases p.flags).length ≤ 1 ∧
      hypForward (hypPhases p.flags) (hypPhases p.flags) := ⟨hinv, Or.inl rfl⟩
  cases op with
  | enter =>
    show (hypPhases (pilot_hyperspaceEnter p).flags).length ≤ 1 ∧
      hypForward (hypPhases p.flags) (hypPhases (pilot_hyperspaceEnter p).flags)
    unfold pilot_hyperspaceEnter
    by_cases h : hypPhases p.flags = []
    · rw [if_pos h]
      have e := hypPhases_of_set p.flags PILOT_HYP_PREP m1 h
      simp only [e]
      exact ⟨by simp, Or.inr (Or.inl ⟨h, rfl⟩)⟩
    · rw [if_neg h]; exact same
  | update vel dt =>
    show (hypPhases (pilot_hyperspace p vel dt).flags).length ≤ 1 ∧
      hypForward (hypPhases p.flags) (hypPhases (pilot_hyperspace p vel dt).flags)
    unfold pilot_hyperspace
    by_cases h1 : pilot_isFlag p.flags PILOT_HYP_PREP ≠ 0
    · rw [if_pos h1]
      have hw := hypPhases_single p.flags _ m1 hinv h1
      by_cases ht : p.ptimer - dt ≤ 0
      · rw [if_pos ht]
        have e := hypPhases_of_rm_set p.flags _ _ m1 m2 hw
        simp only [e]
        exact ⟨by simp, Or.inr (Or.inr (Or.inl ⟨hw, rfl⟩))⟩
      · rw [if_neg ht]; exact same
    · rw [if_neg h1]
      by_cases h2 : pilot_isFlag p.flags PILOT_HYP_BEGIN ≠ 0
      · rw [if_pos h2]
        have hw := hypPhases_single p.flags _ m2 hinv h2
        by_cases ht : HYPERSPACE_VEL ≤ vel
        · rw [if_pos ht]
          have e := hypPhases_of_rm_set p.flags _ _ m2 m3 hw
          simp only [e]
          exact ⟨by simp, Or.inr (Or.inr (Or.inr (Or.inl ⟨hw, rfl⟩)))⟩
        · rw [if_neg ht]; exact same
      · rw [if_neg h2]
        by_cases h3 : pilot_isFlag p.flags PILOT_HYPERSPACE ≠ 0
        · rw [if_pos h3]
          have hw := hypPhases_single p.flags _ m3 hinv h3
          by_cases ht : p.ptimer - dt ≤ 0
          · rw [if_pos ht]
            have e := hypPhases_of_rm_set p.flags _ _ m3 m4 hw
            simp only [e]
            exact ⟨by simp, Or.inr (Or.inr (Or.inr (Or.inr (Or.inl ⟨hw, rfl⟩))))⟩
          · rw [if_neg ht]; exact same
        · rw [if_neg h3]
          by_cases h4 : pilot_isFlag p.flags PILOT_HYP_END ≠ 0
          · rw [if_pos h4]
            have hw := hypPhases_single p.flags _ m4 hinv h4
            by_cases ht : p.ptimer - dt ≤ 0
            · rw [if_pos ht]
              have e := hypPhases_of_rm p.flags _ m4 hw
              simp only [e]
              exact ⟨by simp, Or.inr (Or.inr (Or.inr (Or.inr (Or.inr ⟨hw, rfl⟩))))⟩
            · rw [if_neg ht]; exact same
          · rw [if_neg h4]; exact same
  | abort =>
    show (hypPhases (pilot_hyperspaceAbort p).flags).length ≤ 1 ∧
      (((hypPhases p.flags = [PILOT_HYP_PREP] ∨ hypPhases p.flags = [PILOT_HYP_BEGIN]) ∧
          hypPhases (pilot_hyperspaceAbort p).flags = []) ∨
        (hypPhases p.flags ≠ [PILOT_HYP_PREP] ∧ hypPhases p.flags ≠ [PILOT_HYP_BEGIN] ∧
          hypPhases (pilot_hyperspaceAbort p).flags = hypPhases p.flags))
    unfold pilot_hyperspaceAbort
    by_cases h : pilot_isFlag p.flags PILOT_HYP_PREP ≠ 0 ∨
        pilot_isFlag p.flags PILOT_HYP_BEGIN ≠ 0
    · rw [if_pos h]
      have hw : hypPhases p.flags = [PILOT_HYP_PREP] ∨ hypPhases p.flags = [PILOT_HYP_BEGIN] :=
        h.elim (fun h1 => Or.inl (hypPhases_single p.flags _ m1 hinv h1))
          (fun h2 => Or.inr (hypPhases_single p.flags _ m2 hinv h2))
      have e : hypPhases (pilot_rmFlag (pilot_rmFlag p.flags PILOT_HYP_PREP)
          PILOT_HYP_BEGIN) = [] := by
        rcases hw with hw | hw
        · exact (hypPhases_of_rm_rm p.flags _ hw).elim id (fun c => absurd rfl c.1)
        · exact (hypPhases_of_rm_rm p.flags _ hw).elim id (fun c => absurd rfl c.2)
      simp only [e]
      exact ⟨by simp, Or.inl ⟨hw, trivial⟩⟩
    · rw [if_neg h]
      refine ⟨hinv, Or.inr ⟨fun e => h (Or.inl ?_), fun e => h (Or.inr ?_), rfl⟩⟩
      · exact ((mem_hypPhases _ _).mp (e ▸ List.mem_singleton.mpr rfl)).2
      · exact ((mem_hypPhases _ _).mp (e ▸ List.mem_singleton.mpr rfl)).2

theorem hypRun_append (p : Pilot) (ops : List HypOp) (op : HypOp) :
    hypRun p (ops ++ [op]) = hypApply (hypRun p ops) op := by
  induction ops generalizing p with
  | nil => rfl
  | cons o os ih => exact ih (hypApply p o)

theorem hypRun_inv (ops : List HypOp) :
    ∀ p : Pilot, (hypPhases p.flags).length ≤ 1 → (hypPhases (hypRun p ops).flags).length ≤ 1 := by
  induction ops with
  | nil => intro p h; exact h
  | cons o os ih => intro p h; exact ih _ (hypStep_ok p o h).1

/-- C5: from a pilot with at most one hyperspace-phase flag set, every state reached by
entering, updating and aborting has at most one of `PILOT_HYP_PREP`, `PILOT_HYP_BEGIN`,
`PILOT_HYPERSPACE`, `PILOT_HYP_END` set, and every operation moves the phase by at most one
step along none, PREP, BEGIN, TRAVELING, END, none, except that `pilot_hyperspaceAbort`
takes PREP and BEGIN to no phase and leaves the other phases alone. -/
theorem hyperspace_phases_in_order (p0 : Pilot) (ops : List HypOp) (op : HypOp)
    (h0 : (hypPhases p0.flags).length ≤ 1) :
    (hypPhases (hypRun p0 ops).flags).length ≤ 1 ∧
      hypStepOK op (hypPhases (hypRun p0 ops).flags)
        (hypPhases (hypApply (hypRun p0 ops) op).flags) :=
  ⟨hypRun_inv ops p0 h0, (hypStep_ok (hypRun p0 ops) op (hypRun_inv ops p0 h0)).2⟩

/-- C5 on a concrete run: a pilot that has entered hyperspace is in `PREP` alone, and an
abort from there returns it to no phase. -/
theorem hyperspace_phases_in_order_witness :
    (hypPhases scenarioPilot.flags).length ≤ 1 ∧
    hypPhases (hypRun scenarioPilot [.enter]).flags = [PILOT_HYP_PREP] ∧
    hypStepOK .abort (hypPhases (hypRun scenarioPilot [.enter]).flags)
      (hypPhases (hypApply (hypRun scenarioPilot [.enter]) .abort).flags) :=
  ⟨by decide, by decide,
    (hyperspace_phases_in_order scenarioPilot [.enter] .abort (by decide)).2⟩

/-! ## Vectors -/

theorem input_keyRepeat_env (st : InputState) (t keynum : Nat) (value : Int) (rep : Bool) :
    (input_keyRepeat st t keynum value rep).player = st.player ∧
    (input_keyRepeat st t keynum value rep).toolkit_open = st.toolkit_open ∧
    (input_keyRepeat st t keynum value rep).paused = st.paused := by
  unfold input_keyRepeat
  split_ifs <;> exact ⟨rfl, rfl, rfl⟩

theorem INGAME_keyRepeat (st : InputState) (t keynum : Nat) (value : Int) (rep : Bool) :
    INGAME (input_keyRepeat st t keynum value rep) ↔ INGAME st := by
  obtain ⟨_, h2, h3⟩ := input_keyRepeat_env st t keynum value rep
  unfold INGAME
  rw [h2, h3]

theorem NODEAD_keyRepeat (st : InputState) (t keynum : Nat) (value : Int) (rep : Bool) :
    NODEAD (input_keyRepeat st t keynum value rep) ↔ NODEAD st := by
  obtain ⟨h1, _, _⟩ := input_keyRepeat_env st t keynum value rep
  unfold NODEAD
  rw [h1]

/-- The escort commands in the calls of `input_key`, as a chain over the name of the
keybinding: only the four escort branches contribute. -/
theorem input_key_escortParents (st0 : InputState) (t0 t keynum : Nat) (value : Int)
    (kabs : ℚ) (rep : Bool) (kb : Keybind) (hk : st0.input_keybinds.get? keynum = some kb) :
    (input_key st0 t0 t keynum value kabs rep).2.filterMap InputCmd.escortParent =
      if INGAME st0 ∧ NODEAD st0 ∧ rep = false ∧ value = KEY_PRESS ∧
          kb.name ∈ ["e_attack", "e_hold", "e_return", "e_clear"]
      then [st0.player] else [] := by
  have hp := (input_keyRepeat_env st0 t0 keynum value rep).1
  have hI := INGAME_keyRepeat st0 t0 keynum value rep
  have hD := NODEAD_keyRepeat st0 t0 keynum value rep
  unfold input_key
  rw [hk]
  simp only []
  generalize input_keyRepeat st0 t0 keynum value rep = st at hp hI hD
  simp only [apply_ite Prod.snd, apply_ite (List.filterMap InputCmd.escortParent),
    List.filterMap_cons, List.filterMap_nil, List.filterMap_append, InputCmd.escortParent,
    ite_self, List.append_nil, hp, hI, hD]
  generalize kb.name = nm
  by_cases hmem : nm ∈ ["e_attack", "e_hold", "e_return", "e_clear"]
  · simp only [List.mem_cons, List.mem_singleton, List.not_mem_nil, or_false] at hmem
    rcases hmem with rfl | rfl | rfl | rfl <;>
      simp only [String.reduceEq, false_and, and_false, if_false, true_and, and_true,
        List.mem_cons, List.mem_singleton, List.not_mem_nil, or_false, or_true, true_or] <;>
      by_cases hI' : INGAME st0 <;> by_cases hD' : NODEAD st0 <;>
      by_cases hr : rep = false <;> by_cases hv : value = KEY_PRESS <;>
      simp only [hI', hD', hr, hv, true_and, and_true, false_and, and_false, if_true,
        if_false, ite_self]
  · have hmem' := hmem
    simp only [List.mem_cons, List.mem_singleton, List.not_mem_nil, or_false, not_or] at hmem'
    obtain ⟨h1, h2, h3, h4⟩ := hmem'
    simp only [h1, h2, h3, h4, false_and, and_false, if_false, ite_self]
    exact (if_neg (fun h => hmem h.2.2.2.2)).symm

theorem any_ite_list {α : Type} (c : Prop) [Decidable c] (a b : List α) (p : α → Bool) :
    (if c then a else b).any p = if c then a.any p else b.any p := by
  split <;> rfl

/-- Whether `input_key` issues a targeting command, as a chain over the name of the
keybinding: only the seven targeting branches contribute. -/
theorem input_key_anyTargeting (st0 : InputState) (t0 t keynum : Nat) (value : Int)
    (kabs : ℚ) (rep : Bool) (kb : Keybind) (hk : st0.input_keybinds.get? keynum = some kb) :
    (input_key st0 t0 t keynum value kabs rep).2.any InputCmd.isTargeting =
      if INGAME st0 ∧ NODEAD st0 ∧ value = KEY_PRESS ∧ kb.name ∈ targetingKeys
      then true else false := by
  have hp := (input_keyRepeat_env st0 t0 keynum value rep).1
  have hI := INGAME_keyRepeat st0 t0 keynum value rep
  have hD := NODEAD_keyRepeat st0 t0 keynum value rep
  unfold input_key
  rw [hk]
  simp only []
  generalize input_keyRepeat st0 t0 keynum value rep = st at hp hI hD
  simp only [apply_ite Prod.snd, any_ite_list, List.any_cons, List.any_nil, List.any_append,
    InputCmd.isTargeting, Bool.or_false, Bool.or_self, ite_self, hp, hI, hD]
  generalize kb.name = nm
  unfold targetingKeys
  by_cases hmem : nm ∈ ["target_next", "target_prev", "target_nearest", "target_nextHostile",
    "target_prevHostile", "target_hostile", "target_clear"]
  · simp only [List.mem_cons, List.mem_singleton, List.not_mem_nil, or_false] at hmem
    rcases hmem with rfl | rfl | rfl | rfl | rfl | rfl | rfl <;>
      simp only [String.reduceEq, false_and, and_false, if_false, true_and, and_true,
        List.mem_cons, List.mem_singleton, List.not_mem_nil, or_false, or_true, true_or] <;>
      by_cases hI' : INGAME st0 <;> by_cases hD' : NODEAD st0 <;>
      by_cases hv : value = KEY_PRESS <;>
      simp only [hI', hD', hv, true_and, and_true, false_and, and_false, if_true,
        if_false, ite_self]
  · have hmem' := hmem
    simp only [List.mem_cons, List.mem_singleton, List.not_mem_nil, or_false, not_or] at hmem'
    obtain ⟨h1, h2, h3, h4, h5, h6, h7⟩ := hmem'
    simp only [h1, h2, h3, h4, h5, h6, h7, false_and, and_false, if_false, ite_self]
    exact (if_neg (fun h => hmem h.2.2.2)).symm

/-- C8 fails: with `PILOT_HYPERSPACE` set on the player, a press of the key bound to
`target_next` (keybinding 5), in game, makes `input_key` call `player_targetNext(0)`. -/
theorem input_key_targets_in_hyperspace :
    pilot_isFlag (pilotWithFlags PLAYER_ID PILOT_HYPERSPACE).flags PILOT_HYPERSPACE ≠ 0 ∧
    (input_key (inputStateWith (some (pilotWithFlags PLAYER_ID PILOT_HYPERSPACE)))
      0 0 5 KEY_PRESS (-1) false).2 = [InputCmd.player_targetNext 0] := by
  decide

/-- C8, amended: `input_key` issues a targeting command (`player_targetNext`,
`player_targetPrev`, `player_targetNearest`, `player_targetHostile`, `player_targetClear`)
exactly when the keybinding is one of the seven targeting commands, the event is a key
press, the toolkit is closed, the game is not paused, and the player exists and does not
have `PILOT_DEAD`; the hyperspace flags of the player play no part. -/
theorem input_key_targeting_gate (st0 : InputState) (t0 t keynum : Nat) (value : Int)
    (kabs : ℚ) (rep : Bool) :
    (∃ c ∈ (input_key st0 t0 t keynum value kabs rep).2, c.isTargeting = true) ↔
      ((∃ kb, st0.input_keybinds.get? keynum = some kb ∧ kb.name ∈ targetingKeys) ∧
        value = KEY_PRESS ∧ st0.toolkit_open = false ∧ st0.paused = false ∧
        ∃ p, st0.player = some p ∧ pilot_isFlag p.flags PILOT_DEAD = 0) := by
  have hND : NODEAD st0 ↔ ∃ p, st0.player = some p ∧ pilot_isFlag p.flags PILOT_DEAD = 0 := by
    unfold NODEAD
    cases st0.player <;> simp
  rw [← hND, ← List.any_eq_true]
  cases hk : st0.input_keybinds.get? keynum with
  | none =>
    have e : (input_key st0 t0 t keynum value kabs rep).2 = [] := by
      unfold input_key; rw [hk]
    rw [e]
    simp
  | some kb =>
    rw [input_key_anyTargeting st0 t0 t keynum value kabs rep kb hk]
    unfold INGAME
    constructor
    · intro h
      by_cases hc : (st0.toolkit_open = false ∧ st0.paused = false) ∧ NODEAD st0 ∧
          value = KEY_PRESS ∧ kb.name ∈ targetingKeys
      · exact ⟨⟨kb, rfl, hc.2.2.2⟩, hc.2.2.1, hc.1.1, hc.1.2, hc.2.1⟩
      · rw [if_neg hc] at h; exact absurd h (by decide)
    · rintro ⟨⟨kb', hkb, hm⟩, hv, ht, hp, hd⟩
      cases hkb
      rw [if_pos ⟨⟨ht, hp⟩, hd, hv, hm⟩]

/-- C9: every escort command `input_key` issues (`escorts_attack`, `escorts_hold`,
`escorts_return`, `escorts_clear`) is issued against the current `player` and no other
pilot, and only for a key press that is not a repeat, while the toolkit is closed, the game
is not paused, and the player exists and does not have `PILOT_DEAD`. -/
theorem input_key_escort_player (st0 : InputState) (t0 t keynum : Nat) (value : Int)
    (kabs : ℚ) (rep : Bool) (c : InputCmd) (q : Option Pilot)
    (hc : c ∈ (input_key st0 t0 t keynum value kabs rep).2)
    (hq : c.escortParent = some q) :
    q = st0.player ∧ rep = false ∧ value = KEY_PRESS ∧ st0.toolkit_open = false ∧
      st0.paused = false ∧ ∃ p, st0.player = some p ∧ pilot_isFlag p.flags PILOT_DEAD = 0 := by
  have hND : NODEAD st0 ↔ ∃ p, st0.player = some p ∧ pilot_isFlag p.flags PILOT_DEAD = 0 := by
    unfold NODEAD
    cases st0.player <;> simp
  rw [← hND]
  have hm : q ∈ (input_key st0 t0 t keynum value kabs rep).2.filterMap
      InputCmd.escortParent := List.mem_filterMap.mpr ⟨c, hc, hq⟩
  cases hk : st0.input_keybinds.get? keynum with
  | none =>
    have e : (input_key st0 t0 t keynum value kabs rep).2 = [] := by
      unfold input_key; rw [hk]
    rw [e] at hc
    exact absurd hc (List.not_mem_nil _)
  | some kb =>
    rw [input_key_escortParents st0 t0 t keynum value kabs rep kb hk] at hm
    by_cases hcond : INGAME st0 ∧ NODEAD st0 ∧ rep = false ∧ value = KEY_PRESS ∧
        kb.name ∈ ["e_attack", "e_hold", "e_return", "e_clear"]
    · rw [if_pos hcond] at hm
      exact ⟨List.mem_singleton.mp hm, hcond.2.2.1, hcond.2.2.2.1, hcond.1.1, hcond.1.2,
        hcond.2.1⟩
    · rw [if_neg hcond] at hm
      exact absurd hm (List.not_mem_nil _)

/-- C9 at a concrete event: a press of the key bound to `e_attack` (keybinding 24), in
game, with a live player. -/
theorem input_key_escort_player_witness :
    InputCmd.escorts_attack (some (pilotWithFlags PLAYER_ID 0)) ∈
      (input_key (inputStateWith (some (pilotWithFlags PLAYER_ID 0)))
        0 0 24 KEY_PRESS (-1) false).2 ∧
    (some (pilotWithFlags PLAYER_ID 0) =
        (inputStateWith (some (pilotWithFlags PLAYER_ID 0))).player ∧
      false = false ∧ KEY_PRESS = KEY_PRESS ∧
      (inputStateWith (some (pilotWithFlags PLAYER_ID 0))).toolkit_open = false ∧
      (inputStateWith (some (pilotWithFlags PLAYER_ID 0))).paused = false ∧
      ∃ p, (inputStateWith (some (pilotWithFlags PLAYER_ID 0))).player = some p ∧
        pilot_isFlag p.flags PILOT_DEAD = 0) :=
  ⟨by decide,
    input_key_escort_player (inputStateWith (some (pilotWithFlags PLAYER_ID 0)))
      0 0 24 KEY_PRESS (-1) false
      (InputCmd.escorts_attack (some (pilotWithFlags PLAYER_ID 0)))
      (some (pilotWithFlags PLAYER_ID 0)) (by decide) rfl⟩

/-! ## The keybinding table -/

theorem input_getKeybind_setKeybind (n : NMods) (keybind : String) (type : KeybindType)
    (key : Int) (mod : Nat) (binds : List Keybind)
    (h : keybind ∈ binds.map Keybind.name) :
    input_getKeybind (input_setKeybind n binds keybind type key mod).1 keybind =
        (key, some (type, if type = KeybindType.KEYBIND_KEYBOARD then mod else n.NMOD_ALL)) ∧
      (input_setKeybind n binds keybind type key mod).2 = false := by
  induction binds with
  | nil => exact absurd h (List.not_mem_nil _)
  | cons k ks ih =>
    unfold input_setKeybind
    by_cases hk : keybind = k.name
    · rw [if_pos hk]
      refine ⟨?_, rfl⟩
      unfold input_getKeybind
      rw [if_pos hk]
    · rw [if_neg hk]
      have hmem : keybind ∈ ks.map Keybind.name := by
        rcases List.mem_cons.mp h with h1 | h1
        · exact absurd h1 hk
        · exact h1
      refine ⟨?_, (ih hmem).2⟩
      show input_getKeybind (k :: _) keybind = _
      unfold input_getKeybind
      rw [if_neg hk]
      exact (ih hmem).1

theorem input_init_names (n : NMods) :
    (input_init n).map Keybind.name = keybindCommands := by
  unfold input_init
  rw [List.map_map]
  exact List.map_id _

/-- C10: after `input_init`, for every command name of `keybindNames` before "end" and
every type, key and modifier, `input_setKeybind` followed by `input_getKeybind` on that name
returns the key, stores the type, and stores the modifier given for a keyboard binding and
`NMOD_ALL` for every other type; the set does not end in the unknown-command warning. -/
theorem input_keybind_roundtrip (n : NMods) (keybind : String) (type : KeybindType)
    (key : Int) (mod : Nat) (h : keybind ∈ keybindCommands) :
    input_getKeybind (input_setKeybind n (input_init n) keybind type key mod).1 keybind =
        (key, some (type, if type = KeybindType.KEYBIND_KEYBOARD then mod else n.NMOD_ALL)) ∧
      (input_setKeybind n (input_init n) keybind type key mod).2 = false :=
  input_getKeybind_setKeybind n keybind type key mod (input_init n)
    (by rw [input_init_names]; exact h)

/-- C10 at a concrete binding: `jump` bound to joystick button 3. -/
theorem input_keybind_roundtrip_witness :
    "jump" ∈ keybindCommands ∧
    input_getKeybind (input_setKeybind sampleNMods (input_init sampleNMods)
        "jump" KeybindType.KEYBIND_JBUTTON 3 2).1 "jump" =
      (3, some (KeybindType.KEYBIND_JBUTTON, 65535)) :=
  ⟨by decide,
    (input_keybind_roundtrip sampleNMods "jump" KeybindType.KEYBIND_JBUTTON 3 2
      (by decide)).1⟩

/-! ## Step sizes -/

theorem update_routine_dts_routine (dt : ℚ) :
    update_routine_dts (update_routine dt) = [dt] := by
  simp [update_routine_dts, update_routine]

theorem update_routine_dts_append (a b : List Call) :
    update_routine_dts (a ++ b) = update_routine_dts a ++ update_routine_dts b := by
  simp [update_routine_dts]

theorem update_routine_dts_pause (n : Nat) (l : List Call) :
    update_routine_dts (Call.pause_delay n :: l) = update_routine_dts l := by
  simp [update_routine_dts]

theorem update_loop_facts (t : ℚ) :
    (update_routine_dts (update_loop t).1).sum + (update_loop t).2 = t ∧
    (∀ dt ∈ update_routine_dts (update_loop t).1, dt = fps_min) ∧
    (update_loop t).2 ≤ fps_min ∧
    (0 < t → 0 < (update_loop t).2) := by
  induction t using update_loop.induct with
  | case1 t h ih =>
    obtain ⟨i1, i2, i3, i4⟩ := ih
    rw [update_loop_of_gt t h]
    simp only [update_routine_dts_pause, update_routine_dts_append,
      update_routine_dts_routine, List.singleton_append, List.sum_cons, List.mem_cons]
    refine ⟨by linarith, ?_, i3, fun _ => i4 (by linarith)⟩
    rintro dt (rfl | hdt)
    · rfl
    · exact i2 dt hdt
  | case2 t h =>
    rw [update_loop_of_le t (not_lt.mp h)]
    refine ⟨by simp [update_routine_dts], ?_, not_lt.mp h, fun h0 => h0⟩
    intro dt hdt
    simp [update_routine_dts] at hdt

/-- C16: on every frame that `update_all` does not skip, the `dt` arguments of the
`update_routine` calls it makes add up to `game_dt` (exact arithmetic), whatever `game_dt`
is. -/
theorem update_all_conserves_time (s : FrameState)
    (hskip : ¬ (s.real_dt > 1 / 4 ∧ s.fps_skipped = 0)) :
    (update_routine_dts (update_all s).2).sum = s.game_dt := by
  by_cases hgt : s.game_dt > fps_min
  · rw [update_all_substep s hskip hgt]
    have h := (update_loop_facts (s.game_dt - fps_min)).1
    simp only [update_routine_dts_pause, update_routine_dts_append,
      update_routine_dts_routine, List.singleton_append, List.sum_cons, List.sum_append,
      List.sum_nil]
    linarith
  · rw [update_all_single s hskip hgt, update_routine_dts_routine]
    simp

/-- C16 on a frame of 50 milliseconds, which is run as steps of 20, 20 and 10. -/
theorem update_all_conserves_time_witness :
    (update_routine_dts (update_all ⟨1 / 20, 1 / 20, 0⟩).2).sum = 1 / 20 :=
  update_all_conserves_time ⟨1 / 20, 1 / 20, 0⟩ (by norm_num)

/-- C17: on every frame with `game_dt > 0` that `update_all` does not skip, every `dt` it
passes to `update_routine` satisfies `0 < dt` and `dt <= 1/50`. -/
theorem update_all_step_bound (s : FrameState) (h0 : 0 < s.game_dt)
    (hskip : ¬ (s.real_dt > 1 / 4 ∧ s.fps_skipped = 0)) :
    ∀ dt ∈ update_routine_dts (update_all s).2, 0 < dt ∧ dt ≤ 1 / 50 := by
  have hf : (0 : ℚ) < fps_min := by norm_num [fps_min]
  have hfe : fps_min = 1 / 50 := rfl
  rw [← hfe]
  by_cases hgt : s.game_dt > fps_min
  · rw [update_all_substep s hskip hgt]
    obtain ⟨_, i2, i3, i4⟩ := update_loop_facts (s.game_dt - fps_min)
    simp only [update_routine_dts_pause, update_routine_dts_append,
      update_routine_dts_routine, List.singleton_append, List.mem_cons, List.mem_append,
      List.mem_singleton, List.not_mem_nil, or_false]
    rintro dt (rfl | hdt | rfl)
    · exact ⟨hf, le_refl _⟩
    · rw [i2 dt hdt]; exact ⟨hf, le_refl _⟩
    · exact ⟨i4 (by linarith), i3⟩
  · rw [update_all_single s hskip hgt, update_routine_dts_routine]
    intro dt hdt
    rw [List.mem_singleton.mp hdt]
    exact ⟨h0, not_lt.mp hgt⟩

/-- C17 on a frame of 50 milliseconds: the last step, of 10 milliseconds, is within the
bound. -/
theorem update_all_step_bound_witness :
    (1 / 100 : ℚ) ∈ update_routine_dts (update_all ⟨1 / 20, 1 / 20, 0⟩).2 ∧
    ((0 : ℚ) < 1 / 100 ∧ (1 / 100 : ℚ) ≤ 1 / 50) := by
  have hmem : (1 / 100 : ℚ) ∈ update_routine_dts (update_all ⟨1 / 20, 1 / 20, 0⟩).2 := by
    have h1 : update_loop (1 / 20 - fps_min) =
        (Call.pause_delay (toUnsigned (-fps_min * 1000)) :: (update_routine fps_min ++ []),
          1 / 100) := by
      rw [update_loop_of_gt _ (by norm_num [fps_min]),
        update_loop_of_le _ (by norm_num [fps_min])]
      norm_num [fps_min]
    rw [update_all_substep _ (by norm_num) (by norm_num [fps_min])]
    simp only [h1, update_routine_dts_pause, update_routine_dts_append,
      update_routine_dts_routine]
    simp
  exact ⟨hmem,
    update_all_step_bound ⟨1 / 20, 1 / 20, 0⟩ (by norm_num) (by norm_num) (1 / 100) hmem⟩

/-! ## Bound keys -/

theorem input_keyAlreadyBound_unfold (n : NMods) (type : KeybindType) (key : Int) (mod : Nat)
    (name : String) (names : List String) (k : Keybind) (ks : List Keybind) :
    input_keyAlreadyBound n (name :: names) (k :: ks) type key mod =
      if k.type ≠ type then input_keyAlreadyBound n names ks type key mod
      else if key ≠ k.key then input_keyAlreadyBound n names ks type key mod
      else
        match type with
        | .KEYBIND_KEYBOARD =>
          if k.mod = n.NMOD_ALL ∨ mod = n.NMOD_ALL ∨ k.mod = mod then some name
          else input_keyAlreadyBound n names ks type key mod
        | .KEYBIND_JAXISPOS => some name
        | .KEYBIND_JAXISNEG => some name
        | .KEYBIND_JBUTTON => some name
        | _ => input_keyAlreadyBound n names ks type key mod := by
  cases type <;> rfl

theorem input_keyAlreadyBound_cons (n : NMods) (type : KeybindType) (key : Int) (mod : Nat)
    (name : String) (names : List String) (k : Keybind) (ks : List Keybind) :
    input_keyAlreadyBound n (name :: names) (k :: ks) type key mod =
      if bindingTaken n type key mod k = true then some name
      else input_keyAlreadyBound n names ks type key mod := by
  rw [input_keyAlreadyBound_unfold]
  by_cases ht : k.type = type
  · by_cases hk : k.key = key
    · have hk2 : key = k.key := hk.symm
      rw [if_neg (not_not.mpr ht), if_neg (not_not.mpr hk2)]
      cases type <;> simp [bindingTaken, ht, hk]
    · have hk2 : key ≠ k.key := fun h => hk h.symm
      have hb : bindingTaken n type key mod k = false := by
        cases type <;> simp [bindingTaken, hk]
      rw [if_neg (not_not.mpr ht), if_pos hk2, hb]
      rfl
  · have hb : bindingTaken n type key mod k = false := by
      cases type <;> simp [bindingTaken, ht]
    rw [if_pos ht, hb]
    rfl

theorem input_keyAlreadyBound_find (n : NMods) (type : KeybindType) (key : Int) (mod : Nat) :
    ∀ (names : List String) (binds : List Keybind),
      input_keyAlreadyBound n names binds type key mod =
        ((names.zip binds).find? (fun p => bindingTaken n type key mod p.2)).map Prod.fst := by
  intro names
  induction names with
  | nil => intro binds; cases binds <;> rfl
  | cons name names ih =>
    intro binds
    cases binds with
    | nil => rfl
    | cons k ks =>
      rw [input_keyAlreadyBound_cons, List.zip_cons_cons, List.find?_cons]
      by_cases hb : bindingTaken n type key mod k = true
      · rw [if_pos hb]
        simp only [hb]
        rfl
      · rw [if_neg hb]
        rw [Bool.not_eq_true] at hb
        simp only [hb]
        exact ih ks

/-- C11: `input_keyAlreadyBound(type, key, mod)` returns the name, in `keybindNames` order,
of the first binding with the same type and key and, for the keyboard, a compatible
modifier; the joystick types go by type and key alone; it returns `NULL` iff no binding is
taken in that sense, and always for `KEYBIND_NULL`. -/
theorem input_keyAlreadyBound_first (n : NMods) (names : List String) (binds : List Keybind)
    (type : KeybindType) (key : Int) (mod : Nat) :
    input_keyAlreadyBound n names binds type key mod =
        ((names.zip binds).find? (fun p => bindingTaken n type key mod p.2)).map Prod.fst ∧
    (input_keyAlreadyBound n names binds type key mod = none ↔
      ∀ p ∈ names.zip binds, bindingTaken n type key mod p.2 = false) ∧
    (type = KeybindType.KEYBIND_NULL →
      input_keyAlreadyBound n names binds type key mod = none) ∧
    (∀ k, bindingTaken n type key mod k = true ↔
      (type = KeybindType.KEYBIND_KEYBOARD ∧ k.type = type ∧ k.key = key ∧
        (k.mod = n.NMOD_ALL ∨ mod = n.NMOD_ALL ∨ k.mod = mod)) ∨
      ((type = KeybindType.KEYBIND_JAXISPOS ∨ type = KeybindType.KEYBIND_JAXISNEG ∨
          type = KeybindType.KEYBIND_JBUTTON) ∧ k.type = type ∧ k.key = key)) := by
  have hf := input_keyAlreadyBound_find n type key mod names binds
  have hnone : input_keyAlreadyBound n names binds type key mod = none ↔
      ∀ p ∈ names.zip binds, bindingTaken n type key mod p.2 = false := by
    rw [hf, Option.map_eq_none', List.find?_eq_none]
    simp
  refine ⟨hf, hnone, ?_, ?_⟩
  · intro ht
    rw [hnone]
    intro p _
    rw [ht]; rfl
  · intro k
    cases type <;> simp [bindingTaken]

/-! ## Descriptions -/

/-- C14: `keybindNames` and `keybindDescription` have the same number of entries; the names
before "end" are pairwise distinct and none is "end"; and after `input_init`, for every
index before "end", `input_getKeybindDescription` of the name at that index returns the
description at that index, which is not `NULL`. -/
theorem keybind_descriptions_match (n : NMods) :
    keybindNames.length = keybindDescription.length ∧
    keybindCommands.Nodup ∧ "end" ∉ keybindCommands ∧
    keybindCommands.length + 1 = keybindNames.length ∧
    ∀ i, i < keybindCommands.length →
      ∃ name d, keybindNames.get? i = some name ∧ keybindDescription.get? i = some (some d) ∧
        input_getKeybindDescription (input_init n) keybindDescription name = some d := by
  refine ⟨by decide, by decide, by decide, by decide, ?_⟩
  intro i hi
  have hlen : keybindCommands.length = 56 := by decide
  rw [hlen] at hi
  interval_cases i <;> exact ⟨_, _, rfl, rfl, rfl⟩

/-! ## Modifiers -/

theorem nat_eq_zero_iff_testBit (x : Nat) : x = 0 ↔ ∀ i, x.testBit i = false := by
  constructor
  · intro h i; rw [h]; exact Nat.zero_testBit i
  · intro h
    apply Nat.eq_of_testBit_eq
    intro i
    rw [h i, Nat.zero_testBit]

theorem nat_or_ne_zero (x y : Nat) : x ||| y ≠ 0 ↔ (x ≠ 0 ∨ y ≠ 0) := by
  constructor
  · intro h
    by_contra hc
    rw [not_or, not_not, not_not] at hc
    rw [hc.1, hc.2] at h
    exact h rfl
  · intro h h0
    rw [nat_eq_zero_iff_testBit] at h0
    rcases h with h | h
    · apply h
      rw [nat_eq_zero_iff_testBit]
      intro i
      have := h0 i
      rw [Nat.testBit_or, Bool.or_eq_false_iff] at this
      exact this.1
    · apply h
      rw [nat_eq_zero_iff_testBit]
      intro i
      have := h0 i
      rw [Nat.testBit_or, Bool.or_eq_false_iff] at this
      exact this.2

theorem nat_or_and_ne_zero (a b g : Nat) :
    (a ||| b) &&& g ≠ 0 ↔ (a &&& g ≠ 0 ∨ b &&& g ≠ 0) := by
  rw [Nat.and_comm, Nat.and_or_distrib_left, nat_or_ne_zero, Nat.and_comm g a, Nat.and_comm g b]

theorem nat_and_or_ne_zero (a g h : Nat) :
    a &&& (g ||| h) ≠ 0 ↔ (a &&& g ≠ 0 ∨ a &&& h ≠ 0) := by
  rw [Nat.and_or_distrib_left, nat_or_ne_zero]

/-- The result of `input_translateMod` as the union of four terms, one for each group of
modifier keys. -/
theorem input_translateMod_eq (n : NMods) (a : Nat) :
    input_translateMod n a =
      (if a &&& (KMOD_LSHIFT ||| KMOD_RSHIFT) ≠ 0 then n.NMOD_SHIFT else 0) |||
      (if a &&& (KMOD_LCTRL ||| KMOD_RCTRL) ≠ 0 then n.NMOD_CTRL else 0) |||
      (if a &&& (KMOD_LALT ||| KMOD_RALT) ≠ 0 then n.NMOD_ALT else 0) |||
      (if a &&& (KMOD_LMETA ||| KMOD_RMETA) ≠ 0 then n.NMOD_META else 0) := by
  unfold input_translateMod
  simp only []
  split_ifs <;> simp only [Nat.zero_or, Nat.or_zero]

theorem ite_mask_or (a b g m : Nat) :
    (if (a ||| b) &&& g ≠ 0 then m else 0) =
      (if a &&& g ≠ 0 then m else 0) ||| (if b &&& g ≠ 0 then m else 0) := by
  by_cases ha : a &&& g ≠ 0 <;> by_cases hb : b &&& g ≠ 0
  · rw [if_pos ((nat_or_and_ne_zero a b g).mpr (Or.inl ha)), if_pos ha, if_pos hb, Nat.or_self]
  · rw [if_pos ((nat_or_and_ne_zero a b g).mpr (Or.inl ha)), if_pos ha, if_neg hb, Nat.or_zero]
  · rw [if_pos ((nat_or_and_ne_zero a b g).mpr (Or.inr hb)), if_neg ha, if_pos hb, Nat.zero_or]
  · rw [if_neg (fun h => ((nat_or_and_ne_zero a b g).mp h).elim ha hb), if_neg ha, if_neg hb,
      Nat.or_self]

theorem input_translateMod_or (n : NMods) (a b : Nat) :
    input_translateMod n (a ||| b) = input_translateMod n a ||| input_translateMod n b := by
  rw [input_translateMod_eq, input_translateMod_eq, input_translateMod_eq,
    ite_mask_or, ite_mask_or, ite_mask_or, ite_mask_or]
  apply Nat.eq_of_testBit_eq
  intro i
  simp only [Nat.testBit_or]
  generalize (if a &&& (KMOD_LSHIFT ||| KMOD_RSHIFT) ≠ 0 then n.NMOD_SHIFT else 0).testBit i = x1
  generalize (if b &&& (KMOD_LSHIFT ||| KMOD_RSHIFT) ≠ 0 then n.NMOD_SHIFT else 0).testBit i = y1
  generalize (if a &&& (KMOD_LCTRL ||| KMOD_RCTRL) ≠ 0 then n.NMOD_CTRL else 0).testBit i = x2
  generalize (if b &&& (KMOD_LCTRL ||| KMOD_RCTRL) ≠ 0 then n.NMOD_CTRL else 0).testBit i = y2
  generalize (if a &&& (KMOD_LALT ||| KMOD_RALT) ≠ 0 then n.NMOD_ALT else 0).testBit i = x3
  generalize (if b &&& (KMOD_LALT ||| KMOD_RALT) ≠ 0 then n.NMOD_ALT else 0).testBit i = y3
  generalize (if a &&& (KMOD_LMETA ||| KMOD_RMETA) ≠ 0 then n.NMOD_META else 0).testBit i = x4
  generalize (if b &&& (KMOD_LMETA ||| KMOD_RMETA) ≠ 0 then n.NMOD_META else 0).testBit i = y4
  cases x1 <;> cases y1 <;> cases x2 <;> cases y2 <;> cases x3 <;> cases y3 <;> cases x4 <;>
    cases y4 <;> rfl

theorem and_eq_zero_testBit (x y : Nat) (h : x &&& y = 0) (i : Nat) :
    (x.testBit i && y.testBit i) = false := by
  have := (nat_eq_zero_iff_testBit _).mp h i
  rw [Nat.testBit_and] at this
  exact this

theorem or_and_eq_zero (u v x : Nat) (hu : u &&& x = 0) (hv : v &&& x = 0) :
    (u ||| v) &&& x = 0 := by
  rw [Nat.and_comm, Nat.and_or_distrib_left, Nat.and_comm x u, Nat.and_comm x v, hu, hv]
  rfl

theorem ite_and_eq_zero (p : Prop) [Decidable p] (y x : Nat) (h : y &&& x = 0) :
    (if p then y else 0) &&& x = 0 := by
  split
  · exact h
  · exact Nat.zero_and x

/-- A union holds a non-zero mask `x` that shares no bit with the rest iff the term of `x`
is switched on. -/
theorem ite_or_contains (p : Prop) [Decidable p] (x rest : Nat) (hx : x ≠ 0)
    (hrest : rest &&& x = 0) :
    ((if p then x else 0) ||| rest) &&& x = x ↔ p := by
  constructor
  · intro h
    by_contra hp
    rw [if_neg hp, Nat.zero_or, hrest] at h
    exact hx h.symm
  · intro hp
    rw [if_pos hp]
    apply Nat.eq_of_testBit_eq
    intro i
    simp only [Nat.testBit_and, Nat.testBit_or]
    cases x.testBit i <;> simp

/-- C13: for NAEV modifier masks that are non-zero and share no bit, the result of
`input_translateMod(m)` holds `NMOD_SHIFT` iff `m` has the left or the right shift bit,
`NMOD_CTRL` iff a ctrl bit, `NMOD_ALT` iff an alt bit, `NMOD_META` iff a meta bit, and no
bit outside these four masks; it is 0 when `m` has only lock bits (num, caps, mode); and
`input_translateMod(a | b) = input_translateMod(a) | input_translateMod(b)`. -/
theorem input_translateMod_groups (n : NMods) (a b : Nat)
    (hs : n.NMOD_SHIFT ≠ 0) (hc : n.NMOD_CTRL ≠ 0) (hl : n.NMOD_ALT ≠ 0)
    (hm : n.NMOD_META ≠ 0)
    (hsc : n.NMOD_SHIFT &&& n.NMOD_CTRL = 0) (hsl : n.NMOD_SHIFT &&& n.NMOD_ALT = 0)
    (hsm : n.NMOD_SHIFT &&& n.NMOD_META = 0) (hcl : n.NMOD_CTRL &&& n.NMOD_ALT = 0)
    (hcm : n.NMOD_CTRL &&& n.NMOD_META = 0) (hlm : n.NMOD_ALT &&& n.NMOD_META = 0) :
    (input_translateMod n a &&& n.NMOD_SHIFT = n.NMOD_SHIFT ↔
      (a &&& KMOD_LSHIFT ≠ 0 ∨ a &&& KMOD_RSHIFT ≠ 0)) ∧
    (input_translateMod n a &&& n.NMOD_CTRL = n.NMOD_CTRL ↔
      (a &&& KMOD_LCTRL ≠ 0 ∨ a &&& KMOD_RCTRL ≠ 0)) ∧
    (input_translateMod n a &&& n.NMOD_ALT = n.NMOD_ALT ↔
      (a &&& KMOD_LALT ≠ 0 ∨ a &&& KMOD_RALT ≠ 0)) ∧
    (input_translateMod n a &&& n.NMOD_META = n.NMOD_META ↔
      (a &&& KMOD_LMETA ≠ 0 ∨ a &&& KMOD_RMETA ≠ 0)) ∧
    (input_translateMod n a &&&
      (n.NMOD_SHIFT ||| n.NMOD_CTRL ||| n.NMOD_ALT ||| n.NMOD_META) =
        input_translateMod n a) ∧
    (a &&& (KMOD_NUM ||| KMOD_CAPS ||| KMOD_MODE) = a → input_translateMod n a = 0) ∧
    input_translateMod n (a ||| b) = input_translateMod n a ||| input_translateMod n b := by
  have hcs : n.NMOD_CTRL &&& n.NMOD_SHIFT = 0 := by rw [Nat.and_comm]; exact hsc
  have hls : n.NMOD_ALT &&& n.NMOD_SHIFT = 0 := by rw [Nat.and_comm]; exact hsl
  have hms : n.NMOD_META &&& n.NMOD_SHIFT = 0 := by rw [Nat.and_comm]; exact hsm
  have hlc : n.NMOD_ALT &&& n.NMOD_CTRL = 0 := by rw [Nat.and_comm]; exact hcl
  have hmc : n.NMOD_META &&& n.NMOD_CTRL = 0 := by rw [Nat.and_comm]; exact hcm
  have hml : n.NMOD_META &&& n.NMOD_ALT = 0 := by rw [Nat.and_comm]; exact hlm
  refine ⟨?_, ?_, ?_, ?_, ?_, ?_, input_translateMod_or n a b⟩
  · rw [input_translateMod_eq, Nat.or_assoc, Nat.or_assoc, ← nat_and_or_ne_zero]
    exact ite_or_contains _ _ _ hs
      (or_and_eq_zero _ _ _ (ite_and_eq_zero _ _ _ hcs)
        (or_and_eq_zero _ _ _ (ite_and_eq_zero _ _ _ hls) (ite_and_eq_zero _ _ _ hms)))
  · rw [input_translateMod_eq,
      Nat.or_comm (if a &&& (KMOD_LSHIFT ||| KMOD_RSHIFT) ≠ 0 then n.NMOD_SHIFT else 0),
      Nat.or_assoc, Nat.or_assoc, ← nat_and_or_ne_zero]
    exact ite_or_contains _ _ _ hc
      (or_and_eq_zero _ _ _ (ite_and_eq_zero _ _ _ hsc)
        (or_and_eq_zero _ _ _ (ite_and_eq_zero _ _ _ hlc) (ite_and_eq_zero _ _ _ hmc)))
  · rw [input_translateMod_eq,
      Nat.or_comm _ (if a &&& (KMOD_LALT ||| KMOD_RALT) ≠ 0 then n.NMOD_ALT else 0),
      Nat.or_assoc, ← nat_and_or_ne_zero]
    exact ite_or_contains _ _ _ hl
      (or_and_eq_zero _ _ _
        (or_and_eq_zero _ _ _ (ite_and_eq_zero _ _ _ hsl) (ite_and_eq_zero _ _ _ hcl))
        (ite_and_eq_zero _ _ _ hml))
  · rw [input_translateMod_eq,
      Nat.or_comm _ (if a &&& (KMOD_LMETA ||| KMOD_RMETA) ≠ 0 then n.NMOD_META else 0),
      ← nat_and_or_ne_zero]
    exact ite_or_contains _ _ _ hm
      (or_and_eq_zero _ _ _
        (or_and_eq_zero _ _ _ (ite_and_eq_zero _ _ _ hsm) (ite_and_eq_zero _ _ _ hcm))
        (ite_and_eq_zero _ _ _ hlm))
  · rw [input_translateMod_eq]
    apply Nat.eq_of_testBit_eq
    intro i
    simp only [Nat.testBit_and, Nat.testBit_or]
    split_ifs <;>
      (try simp only [Nat.zero_testBit, Bool.false_or, Bool.or_false, Bool.false_and]) <;>
      cases n.NMOD_SHIFT.testBit i <;> cases n.NMOD_CTRL.testBit i <;>
      cases n.NMOD_ALT.testBit i <;> cases n.NMOD_META.testBit i <;> rfl
  · intro hlock
    have hz : ∀ g, (KMOD_NUM ||| KMOD_CAPS ||| KMOD_MODE) &&& g = 0 → ¬ a &&& g ≠ 0 := by
      intro g hg hne
      apply hne
      rw [← hlock, Nat.and_assoc, hg, Nat.and_zero]
    rw [input_translateMod_eq, if_neg (hz _ (by decide)), if_neg (hz _ (by decide)),
      if_neg (hz _ (by decide)), if_neg (hz _ (by decide))]
    rfl

/-- C13 at the sample masks: both shift keys and caps lock translate to `NMOD_SHIFT`. -/
theorem input_translateMod_groups_witness :
    input_translateMod sampleNMods (KMOD_LSHIFT ||| KMOD_RSHIFT ||| KMOD_CAPS) =
      sampleNMods.NMOD_SHIFT ∧
    (input_translateMod sampleNMods (KMOD_LSHIFT ||| KMOD_RSHIFT ||| KMOD_CAPS) &&&
        sampleNMods.NMOD_SHIFT = sampleNMods.NMOD_SHIFT ↔
      ((KMOD_LSHIFT ||| KMOD_RSHIFT ||| KMOD_CAPS) &&& KMOD_LSHIFT ≠ 0 ∨
        (KMOD_LSHIFT ||| KMOD_RSHIFT ||| KMOD_CAPS) &&& KMOD_RSHIFT ≠ 0)) :=
  ⟨by decide,
    (input_translateMod_groups sampleNMods (KMOD_LSHIFT ||| KMOD_RSHIFT ||| KMOD_CAPS) 0
      (by decide) (by decide) (by decide) (by decide) (by decide) (by decide) (by decide)
      (by decide) (by decide) (by decide)).1⟩

/-! ## Default bindings -/

theorem input_setKeybind_hit (n : NMods) (k : Keybind) (ks : List Keybind)
    (keybind : String) (type : KeybindType) (key : Int) (mod : Nat) (h : keybind = k.name) :
    input_setKeybind n (k :: ks) keybind type key mod =
      ({ k with type := type, key := key,
                mod := if type = KeybindType.KEYBIND_KEYBOARD then mod else n.NMOD_ALL } :: ks,
       false) := by
  show (if keybind = k.name then _ else _) = _
  exact if_pos h

theorem input_setKeybind_miss (n : NMods) (k : Keybind) (ks : List Keybind)
    (keybind : String) (type : KeybindType) (key : Int) (mod : Nat) (h : keybind ≠ k.name) :
    input_setKeybind n (k :: ks) keybind type key mod =
      (k :: (input_setKeybind n ks keybind type key mod).1,
       (input_setKeybind n ks keybind type key mod).2) := by
  show (if keybind = k.name then _ else _) = _
  exact if_neg h

/-- What `input_setKeybind` does to the names, types and keys of the table, and whether it
warns, does not depend on the modifier masks nor on the modifiers stored. -/
theorem input_setKeybind_shape (n m : NMods) (keybind : String) (type : KeybindType)
    (key : Int) (mod1 mod2 : Nat) :
    ∀ (binds1 binds2 : List Keybind),
      binds1.map (fun k => (k.name, k.type, k.key)) =
        binds2.map (fun k => (k.name, k.type, k.key)) →
      (input_setKeybind n binds1 keybind type key mod1).1.map
          (fun k => (k.name, k.type, k.key)) =
        (input_setKeybind m binds2 keybind type key mod2).1.map
          (fun k => (k.name, k.type, k.key)) ∧
      (input_setKeybind n binds1 keybind type key mod1).2 =
        (input_setKeybind m binds2 keybind type key mod2).2 := by
  intro binds1
  induction binds1 with
  | nil =>
    intro binds2 h
    cases binds2 with
    | nil => exact ⟨rfl, rfl⟩
    | cons k ks => simp at h
  | cons k1 ks1 ih =>
    intro binds2 h
    cases binds2 with
    | nil => simp at h
    | cons k2 ks2 =>
      simp only [List.map_cons, List.cons.injEq, Prod.mk.injEq] at h
      obtain ⟨⟨hn, _, _⟩, hrest⟩ := h
      by_cases hk : keybind = k1.name
      · rw [input_setKeybind_hit n k1 ks1 _ _ _ _ hk,
          input_setKeybind_hit m k2 ks2 _ _ _ _ (hk.trans hn)]
        simp only [List.map_cons, hrest, hn, and_self]
      · rw [input_setKeybind_miss n k1 ks1 _ _ _ _ hk,
          input_setKeybind_miss m k2 ks2 _ _ _ _ (fun e => hk (e.trans hn.symm))]
        obtain ⟨i1, i2⟩ := ih ks2 hrest
        simp only [List.map_cons, i1, i2, hn, and_self, *]

theorem input_setKeybinds_shape (n m : NMods) :
    ∀ (calls1 calls2 : List (String × KeybindType × Int × Nat))
      (binds1 binds2 : List Keybind),
      calls1.map (fun c => (c.1, c.2.1, c.2.2.1)) =
        calls2.map (fun c => (c.1, c.2.1, c.2.2.1)) →
      binds1.map (fun k => (k.name, k.type, k.key)) =
        binds2.map (fun k => (k.name, k.type, k.key)) →
      (input_setKeybinds n binds1 calls1).1.map (fun k => (k.name, k.type, k.key)) =
        (input_setKeybinds m binds2 calls2).1.map (fun k => (k.name, k.type, k.key)) ∧
      (input_setKeybinds n binds1 calls1).2 = (input_setKeybinds m binds2 calls2).2 := by
  intro calls1
  induction calls1 with
  | nil =>
    intro calls2 binds1 binds2 hc hb
    cases calls2 with
    | nil => exact ⟨hb, rfl⟩
    | cons c cs => simp at hc
  | cons c1 cs1 ih =>
    intro calls2 binds1 binds2 hc hb
    cases calls2 with
    | nil => simp at hc
    | cons c2 cs2 =>
      obtain ⟨a1, b1, d1, e1⟩ := c1
      obtain ⟨a2, b2, d2, e2⟩ := c2
      simp only [List.map_cons, List.cons.injEq, Prod.mk.injEq] at hc
      obtain ⟨⟨rfl, rfl, rfl⟩, hrest⟩ := hc
      obtain ⟨s1, s2⟩ := input_setKeybind_shape n m a1 b1 d1 e1 e2 binds1 binds2 hb
      obtain ⟨i1, i2⟩ := ih cs2 _ _ hrest s1
      exact ⟨i1, by show _ :: _ = _ :: _; rw [s2, i2]⟩

theorem input_setDefault_shape (n : NMods) :
    (input_setDefault n (input_init n)).1.map (fun k => (k.name, k.type, k.key)) =
      (input_setDefault sampleNMods (input_init sampleNMods)).1.map
        (fun k => (k.name, k.type, k.key)) ∧
    (input_setDefault n (input_init n)).2 =
      (input_setDefault sampleNMods (input_init sampleNMods)).2 := by
  apply input_setKeybinds_shape
  · rfl
  · unfold input_init
    rw [List.map_map, List.map_map]
    rfl

/-- C15: after `input_init` and `input_setDefault`, no call of `input_setKeybind` has ended
in the unknown-command warning, every command name before "end" has been named by a call,
and every command is bound to a keyboard key other than `SDLK_UNKNOWN`, except
`target_prevHostile`, which is left with `KEYBIND_NULL` and `SDLK_UNKNOWN`. -/
theorem input_setDefault_binds (n : NMods) :
    (∀ w ∈ (input_setDefault n (input_init n)).2, w = false) ∧
    (input_setDefault n (input_init n)).2.length = (input_setDefaultCalls n).length ∧
    (∀ name ∈ keybindCommands, name ∈ (input_setDefaultCalls n).map Prod.fst) ∧
    (input_setDefault n (input_init n)).1.map Keybind.name = keybindCommands ∧
    (∀ k ∈ (input_setDefault n (input_init n)).1,
      (k.name = "target_prevHostile" →
        k.type = KeybindType.KEYBIND_NULL ∧ k.key = SDLK_UNKNOWN) ∧
      (k.name ≠ "target_prevHostile" →
        k.type = KeybindType.KEYBIND_KEYBOARD ∧ k.key ≠ SDLK_UNKNOWN)) := by
  obtain ⟨ht, hw⟩ := input_setDefault_shape n
  have hw0 : (input_setDefault sampleNMods (input_init sampleNMods)).2 =
      List.replicate 56 false := by decide
  have hc : (input_setDefaultCalls n).map Prod.fst =
      (input_setDefaultCalls sampleNMods).map Prod.fst := rfl
  have hlen : (input_setDefaultCalls n).length = 56 := rfl
  have hnames : ((input_setDefault sampleNMods (input_init sampleNMods)).1.map
      (fun k => (k.name, k.type, k.key))).map Prod.fst = keybindCommands := by decide
  have hall : ∀ x ∈ (input_setDefault sampleNMods (input_init sampleNMods)).1.map
      (fun k => (k.name, k.type, k.key)),
      (x.1 = "target_prevHostile" →
        x.2.1 = KeybindType.KEYBIND_NULL ∧ x.2.2 = SDLK_UNKNOWN) ∧
      (x.1 ≠ "target_prevHostile" →
        x.2.1 = KeybindType.KEYBIND_KEYBOARD ∧ x.2.2 ≠ SDLK_UNKNOWN) := by
    decide
  refine ⟨?_, ?_, ?_, ?_, ?_⟩
  · intro w h
    rw [hw, hw0] at h
    exact (List.mem_replicate.mp h).2
  · rw [hw, hw0, hlen]; rfl
  · rw [hc]
    decide
  · rw [← hnames, ← ht, List.map_map]
    rfl
  · intro k hk
    have hm : (k.name, k.type, k.key) ∈
        (input_setDefault n (input_init n)).1.map (fun k => (k.name, k.type, k.key)) :=
      List.mem_map.mpr ⟨k, hk, rfl⟩
    rw [ht] at hm
    exact hall _ hm

/-! ## Key events -/

theorem input_keyRepeat_keybinds (st : InputState) (t keynum : Nat) (value : Int)
    (rep : Bool) :
    (input_keyRepeat st t keynum value rep).input_keybinds = st.input_keybinds := by
  unfold input_keyRepeat
  split_ifs <;> rfl

/-- The function `input_key` leaves the table of keybindings as it is. -/
theorem input_key_keybinds (st0 : InputState) (t0 t keynum : Nat) (value : Int) (kabs : ℚ)
    (rep : Bool) :
    (input_key st0 t0 t keynum value kabs rep).1.input_keybinds = st0.input_keybinds := by
  have hst := input_keyRepeat_keybinds st0 t0 keynum value rep
  unfold input_key
  cases hk : st0.input_keybinds.get? keynum with
  | none => rfl
  | some kb =>
    simp only []
    generalize input_keyRepeat st0 t0 keynum value rep = st at hst
    simp only [apply_ite Prod.fst, apply_ite InputState.input_keybinds, player_setFlag,
      player_rmFlag, ite_self, hst]

theorem input_keyeventLoop_dispatch (n : NMods) (t0 t : Nat) (event key : Int) (mod : Nat)
    (rep : Bool) :
    ∀ (cnt i : Nat) (st : InputState),
      (input_keyeventLoop n t0 t event key (input_translateMod n mod) rep i cnt st).2.1 =
        (List.range' i cnt).filter (fun j =>
          match st.input_keybinds.get? j with
          | some kb => keyeventMatches n event key mod kb
          | none => false) := by
  intro cnt
  induction cnt with
  | zero => intro i st; rfl
  | succ cnt ih =>
    intro i st
    rw [List.range'_succ, List.filter_cons]
    unfold input_keyeventLoop
    cases hk : st.input_keybinds.get? i with
    | none =>
      simp only [Bool.false_eq_true, if_false]
      exact ih (i + 1) st
    | some kb =>
      simp only []
      by_cases hc : kb.type = KeybindType.KEYBIND_KEYBOARD ∧ kb.key = key ∧
          (kb.mod = input_translateMod n mod ∨ kb.mod = n.NMOD_ALL ∨ event = KEY_RELEASE)
      · have hm : keyeventMatches n event key mod kb = true := by
          unfold keyeventMatches
          exact decide_eq_true ⟨hc.1, hc.2.1, by tauto⟩
        rw [if_pos hc, if_pos hm]
        simp only []
        rw [ih (i + 1) _, input_key_keybinds]
      · have hm : ¬ keyeventMatches n event key mod kb = true := by
          unfold keyeventMatches
          rw [decide_eq_true_iff]
          intro h
          exact hc ⟨h.1, h.2.1, by tauto⟩
        rw [if_neg hc, if_neg hm]
        exact ih (i + 1) st

/-- The state and the calls of the loop of `input_keyevent` are those of running
`input_key` on the indices it dispatches, in order. -/
theorem input_keyeventLoop_run (n : NMods) (t0 t : Nat) (event key : Int) (mod_filtered : Nat)
    (rep : Bool) :
    ∀ (cnt i : Nat) (st : InputState),
      ((input_keyeventLoop n t0 t event key mod_filtered rep i cnt st).1,
        (input_keyeventLoop n t0 t event key mod_filtered rep i cnt st).2.2) =
      input_keyRun t0 t event rep st
        (input_keyeventLoop n t0 t event key mod_filtered rep i cnt st).2.1 := by
  intro cnt
  induction cnt with
  | zero => intro i st; rfl
  | succ cnt ih =>
    intro i st
    unfold input_keyeventLoop
    cases hk : st.input_keybinds.get? i with
    | none =>
      simp only []
      exact ih (i + 1) st
    | some kb =>
      simp only []
      by_cases hc : kb.type = KeybindType.KEYBIND_KEYBOARD ∧ kb.key = key ∧
          (kb.mod = mod_filtered ∨ kb.mod = n.NMOD_ALL ∨ event = KEY_RELEASE)
      · rw [if_pos hc]
        simp only []
        have h := ih (i + 1) (input_key st t0 t i event (-1) rep).1
        rw [Prod.ext_iff] at h
        show _ = (_, _)
        rw [← h.1, ← h.2]
      · rw [if_neg hc]
        exact ih (i + 1) st

/-- C12: `input_keyevent` turns a keyboard event into the command invocations of exactly
the table entries that are keyboard bindings of the key and, for a press, whose modifier is
`input_translateMod(mod)` or `NMOD_ALL`; for a release the modifier plays no part. The
entries are dispatched in table order, each once, no binding of another key or type is, and
the state left and the calls made are those of `input_key(i, event, -1., repeat)` run on the
dispatched entries in that order. -/
theorem input_keyevent_dispatch (n : NMods) (st : InputState) (t0 t : Nat) (event key : Int)
    (mod : Nat) (rep : Bool) :
    (input_keyevent n st t0 t event key mod rep).2.1 =
        (List.range keybindCommands.length).filter (fun j =>
          match st.input_keybinds.get? j with
          | some kb => keyeventMatches n event key mod kb
          | none => false) ∧
    ((input_keyevent n st t0 t event key mod rep).1,
        (input_keyevent n st t0 t event key mod rep).2.2) =
      input_keyRun t0 t event rep st
        ((List.range keybindCommands.length).filter (fun j =>
          match st.input_keybinds.get? j with
          | some kb => keyeventMatches n event key mod kb
          | none => false)) ∧
    (∀ kb, keyeventMatches n KEY_RELEASE key mod kb = true ↔
      (kb.type = KeybindType.KEYBIND_KEYBOARD ∧ kb.key = key)) ∧
    (∀ kb, keyeventMatches n KEY_PRESS key mod kb = true ↔
      (kb.type = KeybindType.KEYBIND_KEYBOARD ∧ kb.key = key ∧
        (kb.mod = input_translateMod n mod ∨ kb.mod = n.NMOD_ALL))) := by
  have hidx : (input_keyevent n st t0 t event key mod rep).2.1 =
      (List.range keybindCommands.length).filter (fun j =>
        match st.input_keybinds.get? j with
        | some kb => keyeventMatches n event key mod kb
        | none => false) := by
    rw [List.range_eq_range']
    exact input_keyeventLoop_dispatch n t0 t event key mod rep _ 0 st
  refine ⟨hidx, ?_, ?_, ?_⟩
  · rw [← hidx]
    exact input_keyeventLoop_run n t0 t event key (input_translateMod n mod) rep _ 0 st
  · intro kb
    simp [keyeventMatches]
  · intro kb
    have hne : KEY_PRESS ≠ KEY_RELEASE := by decide
    simp [keyeventMatches, hne]

/-- C12 on the default bindings: a press of tab with left ctrl held, in game with a live
player, is dispatched to `target_prev` (keybinding 6) alone and calls
`player_targetPrev(0)`; the release is dispatched to `target_next` and `target_prev`. -/
theorem input_keyevent_tab :
    (input_keyevent sampleNMods (defaultInputState (some (pilotWithFlags PLAYER_ID 0)))
      0 0 KEY_PRESS SDLK_TAB KMOD_LCTRL false).2 = ([6], [InputCmd.player_targetPrev 0]) ∧
    (input_keyevent sampleNMods (defaultInputState (some (pilotWithFlags PLAYER_ID 0)))
      0 0 KEY_RELEASE SDLK_TAB KMOD_LCTRL false).2 = ([5, 6], []) := by
  decide

/-! ## Loading and unloading -/

/-- C18: `load_all` loads commodities before space; factions before fleets, space, missions
and AI; AI before fleets; outfits before ships; ships before fleets; fleets before space. -/
theorem load_all_respects_dependencies :
    loadOrder = [.commodities, .factions, .ai, .missions, .events, .spfx, .outfits, .ships,
      .fleets, .space] ∧
    ∀ d ∈ loadDependencies, loadedBefore d.1 d.2 = true := by
  decide

/-- C19 fails: the subsystems `unload_all` frees are not the reverse of those `load_all`
loads: it frees neither the AI nor the events, and it frees the economy and the mission
variables, which `load_all` does not load. -/
theorem unload_all_not_reverse :
    unloadOrder ≠ loadOrder.reverse ∧
    Subsystem.ai ∈ loadOrder ∧ Subsystem.ai ∉ unloadOrder ∧
    Subsystem.economy ∈ unloadOrder ∧ Subsystem.economy ∉ loadOrder := by
  decide

/-- C19, amended: `unload_all` frees, in this order, the economy, space, fleets, ships,
outfits, special effects, missions, factions, commodities and the mission variables; the
subsystems among them that `load_all` loaded are freed in the inverse of the order in which
they were loaded. -/
theorem unload_all_inverse_of_loaded :
    unloadOrder = [.economy, .space, .fleets, .ships, .outfits, .spfx, .missions, .factions,
      .commodities, .variables] ∧
    unloadOrder.filter (fun s => decide (s ∈ loadOrder)) =
      (loadOrder.filter (fun s => decide (s ∈ unloadOrder))).reverse := by
  decide

/-! ## News -/

/-- C20 fails on the code: when the first call of `news_init` fails to load the news
script it returns -1 but leaves `news_state` set, so the next call returns 0, whatever it
would have loaded, with the script still not loaded. -/
theorem news_init_zero_after_failure :
    (news_init none 1).2 = -1 ∧
    (news_init (news_init none 1).1 0).2 = 0 ∧
    (news_init (news_init none 1).1 1).2 = 0 ∧
    newsLoaded (news_init (news_init none 1).1 0).1 = false ∧
    newsLoaded (news_init (news_init none 1).1 1).1 = false := by
  decide

end Naev
